import Mathlib

/-!
Shallow embedding of `mpas_analysis/shared/plot/plotting.py` (MPAS-Analysis).

Each plotting routine of the module is modelled as a pure function that
returns the list of observable effects it performs (configuration reads,
figure creation, calls into the plotting library, file writes, figure
closing) together with an `Except PyError Unit` outcome.  Python-level
failure modes of the module's own code are modelled explicitly:

* the two `raise ValueError` statements of `plot_vertical_section`;
* the `raise ValueError` statement of `setup_colormap`;
* `IndexError` from direct element access (`lineStyles[dsIndex]`,
  `indices[0]`, `xArray[0]`, `fieldArray.shape[1]` on an empty array, ...);
* `NameError` from a local variable that is only bound inside a `for`
  loop or branch (`mean`, `dsIndex`);
* the `ValueError` that `np.amin` raises on a zero-size array, and the
  broadcast `ValueError` of `fieldArray+errArray`.

Errors raised by the plotting library itself (matplotlib / basemap) are
outside the module's code and are abstracted as `libCall` effects.

The module is Python 2 code (it imports the `ConfigParser` module), so
`round` is round-half-away-from-zero and `int(x)` truncates toward zero;
the arithmetic below follows those semantics.
-/

/-- Python exceptions that the module's own statements can produce. -/
inductive PyError
  | valueError (msg : String)
  | indexError
  | nameError (var : String)
  | noOptionError (sectionName optName : String)
deriving Repr, DecidableEq

/-- Observable effects of a call: configuration accesses, figure-level
operations, delegated plotting-library calls, file writes and closing. -/
inductive Effect
  | configRead (method sectionName optName : String)
  | configWrite (sectionName optName : String)
  | figure (w h : Rat) (dpi : Int)
  | subplot (code : Nat)
  | suptitle (size : String)
  | setTitle (size : String)
  | savefig (file : String) (dpi : Int)
  | close
  | libCall (name : String)
deriving Repr, DecidableEq

/-- The `[plot]` section options that the module reads. -/
structure PlotConfig where
  dpi : Int
  titleFontSize : String
  axisFontSize : String
  titleFontColor : String
  titleFontWeight : String
  displayToScreen : Bool
deriving Repr, DecidableEq

/-- Normalise a Python index for slicing: negative indices count from the
end, and both ends are clamped into `[0, L]`. -/
def pyIdxNorm (L : Nat) (i : Int) : Nat :=
  if i < 0 then (max 0 ((L : Int) + i)).toNat else min i.toNat L

/-- Python list slicing `l[s:t]` (with the convention that the literal
stop `-0` is `0`, so `l[s:-0]` is `l[s:0]` and therefore empty). -/
def pySlice {α : Type} (l : List α) (s t : Int) : List α :=
  (l.take (pyIdxNorm l.length t)).drop (pyIdxNorm l.length s)

/-- Centered rolling mean of window `n` as in
`pd.Series.rolling(x, n, center=True).mean()`: the length is preserved and
positions without a full window hold NaN (modelled as `none`). -/
def rollingMeanCenter (n : Nat) (vals : List Rat) : List (Option Rat) :=
  (List.range vals.length).map fun i =>
    let e := i + n / 2
    if n ≠ 0 ∧ n - 1 ≤ e ∧ e < vals.length then
      some ((((vals.drop (e + 1 - n)).take n).foldl (· + ·) 0) / (n : Rat))
    else none

/-- Start index `int(N/2.0)` of the moving-average trim in
`plot_vertical_section` (Python 2 `int` truncation of `N/2.0`). -/
def maTrimStart (n : Nat) : Nat := n / 2

/-- Stop index `-int(round(N/2.0)-1)` of the moving-average trim
(Python 2 `round` is half-away-from-zero, so `round(N/2.0) = (N+1)//2`). -/
def maTrimStop (n : Nat) : Int := -(((n + 1) / 2 : Int) - 1)

/-- The trimmed x array `xArray[int(N/2.0):-int(round(N/2.0)-1)]` of the
moving-average step of `plot_vertical_section`. -/
def smoothX (n : Nat) (x : List Rat) : List Rat :=
  pySlice x (maTrimStart n : Int) (maTrimStop n)

/-- One smoothed depth slice of the moving-average step of
`plot_vertical_section`: rolling mean followed by the same trim. -/
def smoothSlice (n : Nat) (row : List Rat) : List (Option Rat) :=
  pySlice (rollingMeanCenter n row) (maTrimStart n : Int) (maTrimStop n)

/-- Colormaps as the module sees them: either a registry colormap looked
up by name (`plt.get_cmap`) or a `ListedColormap` built from a list of
colors with under/over colors set.  A color of a registry colormap is
modelled as the pair of the registry name and the index it was sampled
at. -/
inductive Colormap
  | registry (name : String)
  | listed (colors : List (String × Nat)) (name : String)
      (under over : String × Nat)
deriving Repr, DecidableEq

/-- Number of listed colors of a `ListedColormap` (`none` for a registry
colormap). -/
def cmapListedCount : Colormap → Option Nat
  | .registry _ => none
  | .listed colors _ _ _ => some colors.length

/-- The options of the named config section that `setup_colormap` reads;
an absent option is `none` (reading it raises `NoOptionError`). -/
structure CmapConfig where
  colormapName : String
  colormapIndices : Option (List Nat)
  colorbarLevels : Option (List Rat)
deriving Repr, DecidableEq

/-- Embedding of `setup_colormap(config, configSectionName, suffix)`.
It reads `colormapName{suffix}` and `colormapIndices{suffix}` (an absent
indices option propagates `NoOptionError`), catches `NoOptionError` when
reading `colorbarLevels{suffix}` (turning it into `None`), and when
levels are present builds a `ListedColormap`, raising `ValueError` when
the indices list is neither one longer nor one shorter than the levels
list.  `indices[0]` on an empty indices list raises `IndexError` before
the length check. -/
def setup_colormap (c : CmapConfig) (sectionName suffix : String) :
    List Effect × Except PyError (Colormap × Option (List Rat)) :=
  let tr0 := [Effect.configRead "get" sectionName ("colormapName" ++ suffix),
              Effect.libCall "get_cmap"]
  let cmap := Colormap.registry c.colormapName
  let tr1 := tr0 ++
    [Effect.configRead "getExpression" sectionName ("colormapIndices" ++ suffix)]
  match c.colormapIndices with
  | none => (tr1, .error (.noOptionError sectionName ("colormapIndices" ++ suffix)))
  | some indices =>
    let tr2 := tr1 ++
      [Effect.configRead "getExpression" sectionName ("colorbarLevels" ++ suffix)]
    match c.colorbarLevels with
    | none => (tr2, .ok (cmap, none))
    | some levels =>
      match indices with
      | [] => (tr2, .error .indexError)
      | i0 :: rest =>
        let underColor := (c.colormapName, i0)
        let overColor := (c.colormapName, (i0 :: rest).getLast (List.cons_ne_nil i0 rest))
        if levels.length + 1 = (i0 :: rest).length then
          let inner := pySlice (i0 :: rest) 1 (-1)
          (tr2 ++ [Effect.libCall "ListedColormap"],
           .ok (Colormap.listed (inner.map fun i => (c.colormapName, i))
                 ("colormapName" ++ suffix) underColor overColor, some levels))
        else if (levels.length : Int) - 1 ≠ ((i0 :: rest).length : Int) then
          (tr2, .error (.valueError "length mismatch between indices and colorbarLevels"))
        else
          (tr2 ++ [Effect.libCall "ListedColormap"],
           .ok (Colormap.listed ((i0 :: rest).map fun i => (c.colormapName, i))
                 ("colormapName" ++ suffix) underColor overColor, some levels))

/-- Resolution of the `dpi` keyword argument: when it is `None` the value
is read from option `dpi` of section `[plot]` via `config.getint`. -/
def resolveDpi (cfg : PlotConfig) : Option Int → List Effect × Int
  | none => ([Effect.configRead "getint" "plot" "dpi"], cfg.dpi)
  | some d => ([], d)

/-- Resolution of the `titleFontSize` keyword argument: when it is `None`
the value is read from option `titleFontSize` of section `[plot]` via
`config.get`. -/
def resolveTitleFontSize (cfg : PlotConfig) : Option String → List Effect × String
  | none => ([Effect.configRead "get" "plot" "titleFontSize"], cfg.titleFontSize)
  | some s => ([], s)

/-- Effect of `plt.title(title, **title_font)` guarded by
`if title is not None`. -/
def titleEffects (t : Option String) (size : String) : List Effect :=
  match t with
  | none => []
  | some _ => [Effect.setTitle size]

/-- Effect of an optional library call guarded by an `if x is not None`. -/
def optLib {α : Type} (o : Option α) (s : String) : List Effect :=
  match o with
  | none => []
  | some _ => [Effect.libCall s]

/-- Effect of `plt.savefig(fileout, dpi=dpi, ...)` guarded by
`if fileout is not None`. -/
def savefigEffects (fo : Option String) (dpi : Int) : List Effect :=
  match fo with
  | none => []
  | some f => [Effect.savefig f dpi]

/-- Effect of `plt.close()` guarded by
`if not config.getboolean('plot', 'displayToScreen')`. -/
def closeEffects (display : Bool) : List Effect :=
  if display then [] else [Effect.close]

/-- The common tail of every plotting routine: optional `savefig`, the
`displayToScreen` read, and the conditional `close`. -/
def finishPlot (cfg : PlotConfig) (fileout : Option String) (dpiVal : Int)
    (tr : List Effect) : List Effect × Except PyError Unit :=
  (tr ++ savefigEffects fileout dpiVal ++
     [Effect.configRead "getboolean" "plot" "displayToScreen"] ++
     closeEffects cfg.displayToScreen, .ok ())

/-- NaN-propagating binary minimum (numpy reductions propagate NaN, which
is modelled as `none`). -/
def optMin : Option Rat → Option Rat → Option Rat
  | some a, some b => some (min a b)
  | _, _ => none

/-- NaN-propagating binary maximum. -/
def optMax : Option Rat → Option Rat → Option Rat
  | some a, some b => some (max a b)
  | _, _ => none

/-- `np.amin` over a list: raises `ValueError` on a zero-size argument,
otherwise reduces with a NaN-propagating minimum. -/
def npAmin (l : List (Option Rat)) : Except PyError (Option Rat) :=
  match l with
  | [] => .error (.valueError
      "zero-size array to reduction operation minimum which has no identity")
  | x :: xs => .ok (xs.foldl optMin x)

/-- `np.amax` over a list: raises `ValueError` on a zero-size argument,
otherwise reduces with a NaN-propagating maximum. -/
def npAmax (l : List (Option Rat)) : Except PyError (Option Rat) :=
  match l with
  | [] => .error (.valueError
      "zero-size array to reduction operation maximum which has no identity")
  | x :: xs => .ok (xs.foldl optMax x)

/-- Calendar dates as far as the module observes them (year and month for
tick labels). -/
structure PyDate where
  year : Int
  month : Int
deriving Repr, DecidableEq

/-- Modelled from the spec: `days_to_datetime` of the timekeeping
utilities (a module not included in the sources) converts a day count to
a calendar date used for formatting the time axis.  Modelled as a total
function on finite day values. -/
def days_to_datetime (days : Rat) (calendar : String) : PyDate :=
  let _ := calendar
  let d : Int := Rat.floor days
  { year := d / 365 + 1, month := (d % 365) / 31 + 1 }

/-- Modelled from the spec: `date_to_days` of the timekeeping utilities
(a module not included in the sources) converts a calendar date back to a
day count for tick positions.  Modelled as a total function. -/
def date_to_days (year month : Int) (calendar : String) : Rat :=
  let _ := calendar
  ((year - 1) * 365 + (month - 1) * 31 : Int)

/-- Conversion of a possibly-NaN day value to a date: a NaN day count
cannot be converted to the integers a date is made of. -/
def pyDateOfDays (calendar : String) : Option Rat → Except PyError PyDate
  | none => .error (.valueError "cannot convert float NaN to integer")
  | some d => .ok (days_to_datetime d calendar)

/-- Embedding of `plot_xtick_format(plt, calendar, minDays, maxDays,
maxXTicks)`: `np.amin`/`np.amax` over the day lists (raising on an empty
list), conversion of the extremes to dates, then tick locator/formatter
setup collapsed into one library call. -/
def plot_xtick_format (calendar : String) (minDays maxDays : List (Option Rat))
    (maxXTicks : Int) : List Effect × Except PyError Unit :=
  match npAmin minDays with
  | .error e => ([], .error e)
  | .ok mn =>
    match npAmax maxDays with
    | .error e => ([], .error e)
    | .ok mx =>
      match pyDateOfDays calendar mn with
      | .error e => ([], .error e)
      | .ok start =>
        match pyDateOfDays calendar mx with
        | .error e => ([], .error e)
        | .ok stop =>
          let _ := maxXTicks
          let _ := start
          let _ := stop
          ([Effect.libCall "xtickFormat"], .ok ())

/-- Minimum of a list of day values; the empty case is NaN (`none`),
matching `DataArray.min()` on a zero-size array. -/
def listMinO (l : List Rat) : Option Rat :=
  match l with
  | [] => none
  | x :: xs => some (xs.foldl min x)

/-- Maximum of a list of day values; the empty case is NaN (`none`). -/
def listMaxO (l : List Rat) : Option Rat :=
  match l with
  | [] => none
  | x :: xs => some (xs.foldl max x)

/-- A time-series data set: the `Time` coordinate paired with the data
values. -/
abbrev DataSet := List (Rat × Rat)

/-- Accumulator of the dataset loop shared by `timeseries_analysis_plot`
and `timeseries_analysis_plot_polar`: the `minDays`/`maxDays` lists, the
`mean` loop variable (bound only after a non-`None` dataset was
processed), the finite values plotted so far (for the y-limit model) and
the trace. -/
structure TsLoopAcc where
  minDays : List (Option Rat)
  maxDays : List (Option Rat)
  lastMean : Option (List (Rat × Option Rat))
  finite : List Rat
  trace : List Effect

/-- The dataset loop of the time-series routines: a `None` entry is
skipped, otherwise the rolling mean is computed, `minDays`/`maxDays` are
extended, and the curve is drawn with `lineStyles[dsIndex]`,
`lineWidths[dsIndex]` and `legendText[dsIndex]` (a too-short list raises
`IndexError`). -/
def tsLoop (callName : String) (n : Nat) (styles widths legends : List String) :
    Nat → List (Option DataSet) → TsLoopAcc → TsLoopAcc × Option PyError
  | _, [], acc => (acc, none)
  | i, none :: rest, acc => tsLoop callName n styles widths legends (i + 1) rest acc
  | i, some ds :: rest, acc =>
    let times := ds.map Prod.fst
    let meanVals := rollingMeanCenter n (ds.map Prod.snd)
    let acc' : TsLoopAcc :=
      { acc with
        minDays := acc.minDays ++ [listMinO times]
        maxDays := acc.maxDays ++ [listMaxO times]
        lastMean := some (times.zip meanVals)
        finite := acc.finite ++ meanVals.filterMap id }
    match styles.get? i, widths.get? i, legends.get? i with
    | some _, some _, some _ =>
      tsLoop callName n styles widths legends (i + 1) rest
        { acc' with trace := acc'.trace ++ [Effect.libCall callName] }
    | _, _, _ => (acc', some PyError.indexError)

/-- The y-axis limits after the loop as matplotlib's autoscaling leaves
them: the default `(0, 1)` when no finite point was drawn, otherwise the
data extremes (margins are abstracted away; no claim depends on the exact
values, only on the default when nothing was drawn). -/
def ylimModel (finite : List Rat) : Rat × Rat :=
  match finite with
  | [] => (0, 1)
  | x :: xs => (xs.foldl min x, xs.foldl max x)

/-- The `y = 0` guide line step of `timeseries_analysis_plot`: when the
y limits straddle zero it uses the loop variable `mean`, which raises
`NameError` if no dataset was ever processed. -/
def zeroLineStep (yax : Rat × Rat) (lastMean : Option (List (Rat × Option Rat))) :
    Except PyError (List Effect) :=
  if yax.1 * yax.2 < 0 then
    match lastMean with
    | none => .error (.nameError "mean")
    | some _ => .ok [Effect.libCall "plotZeroLine"]
  else .ok []

/-- Arguments of `timeseries_analysis_plot`. -/
structure TsArgs where
  dsvalues : List (Option DataSet)
  N : Nat
  title : Option String
  xlabel : Option String
  ylabel : Option String
  fileout : Option String
  lineStyles : List String
  lineWidths : List String
  legendText : List String
  calendar : String
  titleFontSize : Option String
  figsize : Rat × Rat := (15, 6)
  dpi : Option Int
  maxXTicks : Int := 20

/-- Embedding of `timeseries_analysis_plot`: dpi resolution and figure
creation, the dataset loop, legend, font option reads, the optional
`y = 0` guide line, x-tick formatting (which raises on an empty day
list), optional title and axis labels, optional `savefig`, and the
conditional `close`. -/
def timeseries_analysis_plot (cfg : PlotConfig) (a : TsArgs) :
    List Effect × Except PyError Unit :=
  let dpiR := resolveDpi cfg a.dpi
  let tr0 := dpiR.1 ++ [Effect.figure a.figsize.1 a.figsize.2 dpiR.2]
  let loopR := tsLoop "plot" a.N a.lineStyles a.lineWidths a.legendText 0 a.dsvalues
    ⟨[], [], none, [], []⟩
  let tr1 := tr0 ++ loopR.1.trace
  match loopR.2 with
  | some e => (tr1, .error e)
  | none =>
    let tr2 := tr1 ++ [Effect.libCall "legend"]
    let tfsR := resolveTitleFontSize cfg a.titleFontSize
    let tr3 := tr2 ++ tfsR.1 ++
      [Effect.configRead "get" "plot" "axisFontSize",
       Effect.configRead "get" "plot" "titleFontColor",
       Effect.configRead "get" "plot" "titleFontWeight"]
    match zeroLineStep (ylimModel loopR.1.finite) loopR.1.lastMean with
    | .error e => (tr3, .error e)
    | .ok zTr =>
      let tr4 := tr3 ++ zTr
      let xtR := plot_xtick_format a.calendar loopR.1.minDays loopR.1.maxDays a.maxXTicks
      let tr5 := tr4 ++ xtR.1
      match xtR.2 with
      | .error e => (tr5, .error e)
      | .ok _ =>
        let tr6 := tr5 ++ titleEffects a.title tfsR.2 ++
          optLib a.xlabel "xlabel" ++ optLib a.ylabel "ylabel"
        finishPlot cfg a.fileout dpiR.2 tr6

/-- Arguments of `timeseries_analysis_plot_polar`. -/
structure TsPolarArgs where
  dsvalues : List (Option DataSet)
  N : Nat
  title : Option String
  fileout : Option String
  lineStyles : List String
  lineWidths : List String
  legendText : List String
  titleFontSize : Option String
  figsize : Rat × Rat := (15, 6)
  dpi : Option Int

/-- Embedding of `timeseries_analysis_plot_polar`: dpi resolution and
figure creation, the dataset loop drawn with `plt.polar`, legend, the
azimuthal month-tick formatting, font option reads, optional title,
optional `savefig`, and the conditional `close`.  Unlike
`timeseries_analysis_plot` it never consults `minDays`/`maxDays` again,
so an all-`None` dataset list is harmless here. -/
def timeseries_analysis_plot_polar (cfg : PlotConfig) (a : TsPolarArgs) :
    List Effect × Except PyError Unit :=
  let dpiR := resolveDpi cfg a.dpi
  let tr0 := dpiR.1 ++ [Effect.figure a.figsize.1 a.figsize.2 dpiR.2]
  let loopR := tsLoop "polar" a.N a.lineStyles a.lineWidths a.legendText 0 a.dsvalues
    ⟨[], [], none, [], []⟩
  let tr1 := tr0 ++ loopR.1.trace
  match loopR.2 with
  | some e => (tr1, .error e)
  | none =>
    let tr2 := tr1 ++ [Effect.libCall "legend", Effect.libCall "polarAxisFormat"]
    let tfsR := resolveTitleFontSize cfg a.titleFontSize
    let tr3 := tr2 ++ tfsR.1 ++
      [Effect.configRead "get" "plot" "axisFontSize",
       Effect.configRead "get" "plot" "titleFontColor",
       Effect.configRead "get" "plot" "titleFontWeight"]
    let tr4 := tr3 ++ titleEffects a.title tfsR.2
    finishPlot cfg a.fileout dpiR.2 tr4

/-- Arguments of `plot_polar_comparison`; the numeric data arrays are
passed straight to the plotting library and are kept abstract. -/
structure PolarCompArgs where
  cmapModelObs : Colormap
  clevsModelObs : List Rat
  cmapDiff : Colormap
  clevsDiff : List Rat
  fileout : Option String
  title : Option String
  plotProjection : String := "npstere"
  modelTitle : String := "Model"
  obsTitle : String := "Observations"
  diffTitle : String := "Model-Observations"
  cbarlabel : String := "units"
  titleFontSize : Option String
  figsize : Option (Rat × Rat)
  dpi : Option Int
  vertical : Bool := false

/-- Embedding of `plot_polar_comparison`: dpi resolution, the
vertical/horizontal choice of default figure size and subplot layout,
figure creation, the conditional suptitle block (note the
`titleFontSize` config fallback happens only inside `if title is not
None`), the axis font read, the three map panels, layout adjustment,
optional `savefig`, and the conditional `close`. -/
def plot_polar_comparison (cfg : PlotConfig) (a : PolarCompArgs) :
    List Effect × Except PyError Unit :=
  let dpiR := resolveDpi cfg a.dpi
  let figsize := match a.figsize with
    | some fs => fs
    | none => if a.vertical then ((8 : Rat), (22 : Rat)) else ((22 : Rat), (8.5 : Rat))
  let subplots : Nat × Nat × Nat :=
    if a.vertical then (311, 312, 313) else (131, 132, 133)
  let tr0 := dpiR.1 ++ [Effect.figure figsize.1 figsize.2 dpiR.2]
  let titleTr := match a.title with
    | none => []
    | some _ =>
      let tfsR := resolveTitleFontSize cfg a.titleFontSize
      tfsR.1 ++ [Effect.configRead "get" "plot" "titleFontColor",
                 Effect.configRead "get" "plot" "titleFontWeight",
                 Effect.suptitle tfsR.2]
  let tr1 := tr0 ++ titleTr ++ [Effect.configRead "get" "plot" "axisFontSize"]
  let tr2 := tr1 ++ [Effect.libCall "BoundaryNorm", Effect.libCall "BoundaryNorm"]
  let tr3 := tr2 ++
    [Effect.subplot subplots.1, Effect.libCall "doSubplot",
     Effect.subplot subplots.2.1, Effect.libCall "doSubplot",
     Effect.subplot subplots.2.2, Effect.libCall "doSubplot"]
  let tr4 := tr3 ++ [Effect.libCall "tightLayout"] ++
    (if a.vertical then [Effect.libCall "subplotsAdjust"] else [])
  finishPlot cfg a.fileout dpiR.2 tr4

/-- Arguments of `plot_global_comparison`. -/
structure GlobalCompArgs where
  cmapModelObs : Colormap
  clevsModelObs : List Rat
  cmapDiff : Colormap
  clevsDiff : List Rat
  fileout : Option String
  title : Option String
  modelTitle : String := "Model"
  obsTitle : String := "Observations"
  diffTitle : String := "Model-Observations"
  cbarlabel : String := "units"
  titleFontSize : Option String
  figsize : Rat × Rat := (8, 12)
  dpi : Option Int

/-- Embedding of `plot_global_comparison`: dpi resolution, figure
creation, the conditional suptitle block (the `titleFontSize` fallback
again only inside `if title is not None`), the axis font read, the
cylindrical basemap, and three panels `subplot(3, 1, k)` (encoded as the
equivalent codes 311/312/313), each with a panel title in the axis font
and its drawing calls, then optional `savefig` and the conditional
`close`. -/
def plot_global_comparison (cfg : PlotConfig) (a : GlobalCompArgs) :
    List Effect × Except PyError Unit :=
  let dpiR := resolveDpi cfg a.dpi
  let tr0 := dpiR.1 ++ [Effect.figure a.figsize.1 a.figsize.2 dpiR.2]
  let titleTr := match a.title with
    | none => []
    | some _ =>
      let tfsR := resolveTitleFontSize cfg a.titleFontSize
      tfsR.1 ++ [Effect.configRead "get" "plot" "titleFontColor",
                 Effect.configRead "get" "plot" "titleFontWeight",
                 Effect.suptitle tfsR.2]
  let tr1 := tr0 ++ titleTr ++ [Effect.configRead "get" "plot" "axisFontSize"]
  let tr2 := tr1 ++ [Effect.libCall "Basemap",
    Effect.libCall "BoundaryNorm", Effect.libCall "BoundaryNorm"]
  let tr3 := tr2 ++
    [Effect.subplot 311, Effect.setTitle cfg.axisFontSize, Effect.libCall "panelDraw",
     Effect.subplot 312, Effect.setTitle cfg.axisFontSize, Effect.libCall "panelDraw",
     Effect.subplot 313, Effect.setTitle cfg.axisFontSize, Effect.libCall "panelDraw"]
  finishPlot cfg a.fileout dpiR.2 tr3

/-- Arguments of `plot_1D`. -/
structure Plot1DArgs where
  xArrays : List (Option (List Rat))
  fieldArrays : List (List Rat)
  errArrays : List (Option (List Rat))
  lineColors : List String
  lineWidths : List String
  legendText : List String
  title : Option String
  xlabel : Option String
  ylabel : Option String
  fileout : Option String := some "plot_1D.png"
  figsize : Rat × Rat := (10, 4)
  dpi : Option Int
  xLim : Option (Rat × Rat)
  yLim : Option (Rat × Rat)
  invertYAxis : Bool := false

/-- Whether `fieldArray + errArray` broadcasts (numpy allows equal
lengths or a length-one operand). -/
def pyBroadcastOk (l1 l2 : List Rat) : Bool :=
  (l1.length == l2.length) || (l1.length == 1) || (l2.length == 1)

/-- The dataset loop of `plot_1D`: each iteration fetches
`fieldArrays[dsIndex]` and `errArrays[dsIndex]` (raising `IndexError`
when the lists are shorter than `xArrays`), skips `None` x arrays, draws
the line (indexing the color/width/legend lists), and with an error
array additionally evaluates `fieldArray+errArray` (whose broadcast can
raise `ValueError`) for the two `fill_between` calls. -/
def p1Loop (flds : List (List Rat)) (errs : List (Option (List Rat)))
    (colors widths legends : List String) :
    Nat → List (Option (List Rat)) → List Effect → List Effect × Option PyError
  | _, [], tr => (tr, none)
  | i, x :: rest, tr =>
    match flds.get? i with
    | none => (tr, some .indexError)
    | some fld =>
      match errs.get? i with
      | none => (tr, some .indexError)
      | some errO =>
        match x with
        | none => p1Loop flds errs colors widths legends (i + 1) rest tr
        | some _ =>
          match colors.get? i, widths.get? i, legends.get? i with
          | some _, some _, some _ =>
            match errO with
            | none =>
              p1Loop flds errs colors widths legends (i + 1) rest
                (tr ++ [Effect.libCall "plot"])
            | some err =>
              if pyBroadcastOk fld err then
                p1Loop flds errs colors widths legends (i + 1) rest
                  (tr ++ [Effect.libCall "plot", Effect.libCall "fillBetween",
                          Effect.libCall "fillBetween"])
              else
                (tr ++ [Effect.libCall "plot"],
                 some (.valueError "operands could not be broadcast together"))
          | _, _, _ => (tr, some .indexError)

/-- Embedding of `plot_1D`: dpi resolution and figure creation, the
dataset loop, grid and horizontal zero line, then `if dsIndex > 0`
(`NameError` when `xArrays` is empty, because the loop variable was never
bound), font option reads, optional title/labels, optional axis
inversion and limits, optional `savefig`, and the conditional
`close`. -/
def plot_1D (cfg : PlotConfig) (a : Plot1DArgs) :
    List Effect × Except PyError Unit :=
  let dpiR := resolveDpi cfg a.dpi
  let tr0 := dpiR.1 ++ [Effect.figure a.figsize.1 a.figsize.2 dpiR.2]
  let loopR := p1Loop a.fieldArrays a.errArrays a.lineColors a.lineWidths
    a.legendText 0 a.xArrays []
  let tr1 := tr0 ++ loopR.1
  match loopR.2 with
  | some e => (tr1, .error e)
  | none =>
    let tr2 := tr1 ++ [Effect.libCall "grid", Effect.libCall "axhline"]
    match a.xArrays with
    | [] => (tr2, .error (.nameError "dsIndex"))
    | _ :: _ =>
      let legendTr := if a.xArrays.length - 1 > 0 then [Effect.libCall "legend"] else []
      let tr3 := tr2 ++ legendTr ++
        [Effect.configRead "get" "plot" "axisFontSize",
         Effect.configRead "get" "plot" "titleFontSize",
         Effect.configRead "get" "plot" "titleFontColor",
         Effect.configRead "get" "plot" "titleFontWeight"]
      let tr4 := tr3 ++ titleEffects a.title cfg.titleFontSize ++
        optLib a.xlabel "xlabel" ++ optLib a.ylabel "ylabel"
      let tr5 := tr4 ++ (if a.invertYAxis then [Effect.libCall "invertYaxis"] else []) ++
        optLib a.xLim "xlim" ++ optLib a.yLim "ylim"
      finishPlot cfg a.fileout dpiR.2 tr5

/-- Arguments of `plot_vertical_section`. -/
structure VertArgs where
  xArray : List Rat
  depthArray : List Rat
  fieldArray : List (List Rat)
  colormapName : Colormap
  colorbarLevels : Option (List Rat)
  contourLevels : Option (List Rat)
  colorbarLabel : Option String
  title : Option String
  xlabel : Option String
  ylabel : Option String
  fileout : Option String := some "moc.png"
  figsize : Rat × Rat := (10, 4)
  dpi : Option Int
  xLim : Option (Rat × Rat)
  yLim : Option (Rat × Rat)
  invertYAxis : Bool := true
  xArrayIsTime : Bool := false
  N : Option Nat
  maxXTicks : Int := 20
  calendar : String := "gregorian"

/-- `fieldArray.shape[1]` for a 2-D array built from nested lists: the
row length; a zero-size array has no second axis, so accessing
`shape[1]` raises `IndexError`. -/
def fieldShape1 : List (List Rat) → Except PyError Nat
  | [] => .error .indexError
  | r :: _ => .ok r.length

/-- The x array after the optional moving-average step of
`plot_vertical_section`. -/
def vertX (a : VertArgs) : List Rat :=
  match a.N with
  | some n => if n ≠ 1 then smoothX n a.xArray else a.xArray
  | none => a.xArray

/-- Embedding of `plot_vertical_section`: the two shape checks raise
`ValueError` before anything else happens (no figure, no file); then dpi
resolution and figure creation, the optional moving-average step, the
contour plot and colorbar, font reads, optional title/labels, axis
inversion and limits, the time-axis formatting (indexing
`xArray[0]`/`xArray[-1]`, which raises `IndexError` on an empty smoothed
x array), optional `savefig`, and the conditional `close`. -/
def plot_vertical_section (cfg : PlotConfig) (a : VertArgs) :
    List Effect × Except PyError Unit :=
  match fieldShape1 a.fieldArray with
  | .error e => ([], .error e)
  | .ok w =>
    if a.xArray.length ≠ w then
      ([], .error (.valueError "size mismatch between xArray and fieldArray"))
    else if a.depthArray.length ≠ a.fieldArray.length then
      ([], .error (.valueError "size mismatch between depthArray and fieldArray"))
    else
      let dpiR := resolveDpi cfg a.dpi
      let tr0 := dpiR.1 ++ [Effect.figure a.figsize.1 a.figsize.2 dpiR.2]
      let x2 := vertX a
      let field2 : List (List (Option Rat)) :=
        match a.N with
        | some n => if n ≠ 1 then a.fieldArray.map (smoothSlice n)
                    else a.fieldArray.map (List.map some)
        | none => a.fieldArray.map (List.map some)
      let _ := field2
      let tr1 := tr0 ++ [Effect.libCall "meshgrid"] ++
        optLib a.colorbarLevels "BoundaryNorm" ++
        [Effect.libCall "contourf"] ++
        optLib a.contourLevels "contour" ++
        [Effect.libCall "colorbar"] ++
        optLib a.colorbarLabel "cbarSetLabel"
      let tr2 := tr1 ++
        [Effect.configRead "get" "plot" "axisFontSize",
         Effect.configRead "get" "plot" "titleFontSize",
         Effect.configRead "get" "plot" "titleFontColor",
         Effect.configRead "get" "plot" "titleFontWeight"]
      let tr3 := tr2 ++ titleEffects a.title cfg.titleFontSize ++
        optLib a.xlabel "xlabel" ++ optLib a.ylabel "ylabel"
      let tr4 := tr3 ++ (if a.invertYAxis then [Effect.libCall "invertYaxis"] else []) ++
        optLib a.xLim "xlim" ++ optLib a.yLim "ylim"
      if a.xArrayIsTime then
        match x2.head?, x2.getLast? with
        | some x0, some xL =>
          let xtR := plot_xtick_format a.calendar [some x0] [some xL] a.maxXTicks
          let tr5 := tr4 ++ xtR.1
          match xtR.2 with
          | .error e => (tr5, .error e)
          | .ok _ => finishPlot cfg a.fileout dpiR.2 tr5
        | _, _ => (tr4, .error .indexError)
      else finishPlot cfg a.fileout dpiR.2 tr4

/-- The file names written by the `savefig` effects of a trace. -/
def savefigFiles (tr : List Effect) : List String :=
  tr.filterMap fun e => match e with
    | .savefig f _ => some f
    | _ => none

/-- The dpi values of the `figure` effects of a trace. -/
def figureDpis (tr : List Effect) : List Int :=
  tr.filterMap fun e => match e with
    | .figure _ _ d => some d
    | _ => none

/-- The figure sizes of the `figure` effects of a trace. -/
def figureSizes (tr : List Effect) : List (Rat × Rat) :=
  tr.filterMap fun e => match e with
    | .figure w h _ => some (w, h)
    | _ => none

/-- The subplot layout codes of a trace, in order. -/
def subplotCodes (tr : List Effect) : List Nat :=
  tr.filterMap fun e => match e with
    | .subplot c => some c
    | _ => none

/-- The four read-only accessor methods of the configuration object. -/
def configReadMethods : List String := ["get", "getint", "getboolean", "getExpression"]

/-- An effect leaves the configuration intact when it is not a
configuration access at all, or is one of the four read methods. -/
def configOk : Effect → Bool
  | .configRead m _ _ => configReadMethods.contains m
  | .configWrite _ _ => false
  | _ => true

def isSavefigE : Effect → Bool
  | .savefig _ _ => true
  | _ => false

def isCloseE : Effect → Bool
  | .close => true
  | _ => false

/-- Effects allowed in the body of a routine before its final
savefig/close step: read-only configuration accesses and anything that
is neither a file write nor a figure close. -/
def midClean (e : Effect) : Bool := configOk e && !isSavefigE e && !isCloseE e

def isFigureE : Effect → Bool
  | .figure _ _ _ => true
  | _ => false

/-- Effects of the body segments other than figure creation: read-only
config accesses and library calls, never a file write or a close. -/
def sideOk (e : Effect) : Bool := midClean e && !isFigureE e

/-- Whether a Python error is a `ValueError`. -/
def isValueError : PyError → Bool
  | .valueError _ => true
  | _ => false

/-- A concrete configuration used to evaluate the embeddings on closed
inputs. -/
def cfgEx : PlotConfig :=
  { dpi := 100, titleFontSize := "16", axisFontSize := "12",
    titleFontColor := "black", titleFontWeight := "bold", displayToScreen := false }

/-- A vertical-section call whose coordinate and field shapes disagree. -/
def vertArgsBad : VertArgs :=
  { xArray := [1], depthArray := [0], fieldArray := [[5, 6]],
    colormapName := .registry "viridis", colorbarLevels := none,
    contourLevels := none, colorbarLabel := none, title := none,
    xlabel := none, ylabel := none, dpi := none, xLim := none, yLim := none,
    N := none }

/-- A well-formed vertical-section call. -/
def vertArgsGood : VertArgs :=
  { xArray := [1, 2], depthArray := [0], fieldArray := [[5, 6]],
    colormapName := .registry "viridis", colorbarLevels := some [0, 1],
    contourLevels := none, colorbarLabel := none, title := some "t",
    xlabel := none, ylabel := none, fileout := some "moc.png", dpi := none,
    xLim := none, yLim := none, N := none }

/-- A time-series call whose dataset list is all `None`. -/
def tsArgsAllNone : TsArgs :=
  { dsvalues := [none], N := 1, title := some "t", xlabel := none,
    ylabel := none, fileout := some "out.png", lineStyles := ["k-"],
    lineWidths := ["1"], legendText := ["a"], calendar := "gregorian",
    titleFontSize := none, dpi := none }

/-- A well-formed time-series call with one real dataset. -/
def tsArgsGood : TsArgs :=
  { dsvalues := [some [(0, 1), (370, 2)]], N := 1, title := some "t",
    xlabel := some "x", ylabel := some "y", fileout := some "out.png",
    lineStyles := ["k-"], lineWidths := ["1"], legendText := ["a"],
    calendar := "gregorian", titleFontSize := none, dpi := none }

/-- A well-formed polar time-series call. -/
def tsPolarArgsGood : TsPolarArgs :=
  { dsvalues := [some [(0, 1), (370, 2)]], N := 1, title := some "t",
    fileout := some "out.png", lineStyles := ["k-"], lineWidths := ["1"],
    legendText := ["a"], titleFontSize := none, dpi := none }

/-- A polar comparison call with no title, omitted title font size, and
the default (`None`) figure size, stacked vertically. -/
def polarCompArgsEx : PolarCompArgs :=
  { cmapModelObs := .registry "jet", clevsModelObs := [0, 1],
    cmapDiff := .registry "RdBu", clevsDiff := [-1, 1],
    fileout := some "polar.png", title := none, titleFontSize := none,
    figsize := none, dpi := none, vertical := true }

/-- A global comparison call with a title. -/
def globalCompArgsEx : GlobalCompArgs :=
  { cmapModelObs := .registry "jet", clevsModelObs := [0, 1],
    cmapDiff := .registry "RdBu", clevsDiff := [-1, 1],
    fileout := some "global.png", title := some "t", titleFontSize := none,
    dpi := none }

/-- A `plot_1D` call with an empty list of x arrays. -/
def p1ArgsEmpty : Plot1DArgs :=
  { xArrays := [], fieldArrays := [], errArrays := [], lineColors := [],
    lineWidths := [], legendText := [], title := none, xlabel := none,
    ylabel := none, dpi := none, xLim := none, yLim := none }

/-- A well-formed `plot_1D` call with one curve and an error band. -/
def p1ArgsGood : Plot1DArgs :=
  { xArrays := [some [1, 2]], fieldArrays := [[3, 4]],
    errArrays := [some [1, 1]], lineColors := ["r"], lineWidths := ["1"],
    legendText := ["a"], title := some "t", xlabel := none, ylabel := none,
    dpi := none, xLim := none, yLim := none }

/-- A colormap section whose indices list is one element longer than the
levels list. -/
def cmapCfgPlusOne : CmapConfig :=
  { colormapName := "jet", colormapIndices := some [0, 5, 9],
    colorbarLevels := some [1, 2] }

/-- A colormap section whose indices and levels lengths are incompatible. -/
def cmapCfgMismatch : CmapConfig :=
  { colormapName := "jet", colormapIndices := some [0, 1, 2, 3],
    colorbarLevels := some [0, 1] }

/-- A colormap section with an empty indices list and levels present. -/
def cmapCfgEmptyIdx : CmapConfig :=
  { colormapName := "jet", colormapIndices := some [],
    colorbarLevels := some [0, 1] }

/-- A colormap section without the `colorbarLevels` option. -/
def cmapCfgNoLevels : CmapConfig :=
  { colormapName := "jet", colormapIndices := some [0, 1],
    colorbarLevels := none }

/-- Every entry of the dataset list is either `None` or a nonempty
dataset. -/
def tsDatasetsOk (ds : List (Option DataSet)) : Bool :=
  ds.all fun o => match o with
    | none => true
    | some l => !l.isEmpty

/-- At least one dataset of the list is not `None`. -/
def tsAnyDataset (ds : List (Option DataSet)) : Bool := ds.any Option.isSome

/-- Every curve of a `plot_1D` call whose error array is present
broadcasts against its field array. -/
def p1BroadcastsOk (a : Plot1DArgs) : Bool :=
  (List.range a.xArrays.length).all fun j =>
    match a.fieldArrays.get? j, a.errArrays.get? j with
    | some f, some (some er) => pyBroadcastOk f er
    | _, _ => true

theorem filterMap_replicate_none {α β : Type} (f : α → Option β) (e : α)
    (h : f e = none) : ∀ k, (List.replicate k e).filterMap f = []
  | 0 => by simp
  | k + 1 => by
    simp [List.replicate_succ, List.filterMap_cons, h,
      filterMap_replicate_none f e h k]

theorem all_replicate_true {α : Type} (p : α → Bool) (e : α)
    (h : p e = true) : ∀ k, (List.replicate k e).all p = true
  | 0 => by simp
  | k + 1 => by
    simp [List.replicate_succ, h, all_replicate_true p e h k]

theorem mem_replicate_eq {α : Type} {e x : α} {k : Nat}
    (h : x ∈ List.replicate k e) : x = e :=
  (List.eq_of_mem_replicate h)

theorem savefigFiles_append (a b : List Effect) :
    savefigFiles (a ++ b) = savefigFiles a ++ savefigFiles b :=
  List.filterMap_append a b _

theorem figureDpis_append (a b : List Effect) :
    figureDpis (a ++ b) = figureDpis a ++ figureDpis b :=
  List.filterMap_append a b _

theorem figureSizes_append (a b : List Effect) :
    figureSizes (a ++ b) = figureSizes a ++ figureSizes b :=
  List.filterMap_append a b _

theorem subplotCodes_append (a b : List Effect) :
    subplotCodes (a ++ b) = subplotCodes a ++ subplotCodes b :=
  List.filterMap_append a b _

theorem savefigFiles_savefigEffects (fo : Option String) (d : Int) :
    savefigFiles (savefigEffects fo d) = fo.toList := by
  cases fo <;> simp [savefigEffects, savefigFiles]

theorem savefigFiles_closeEffects (b : Bool) :
    savefigFiles (closeEffects b) = [] := by
  cases b <;> simp [closeEffects, savefigFiles]

theorem savefigFiles_finishPlot (cfg : PlotConfig) (fo : Option String)
    (d : Int) (tr : List Effect) :
    savefigFiles (finishPlot cfg fo d tr).1 = savefigFiles tr ++ fo.toList := by
  simp only [finishPlot]
  rw [savefigFiles_append, savefigFiles_append, savefigFiles_append,
    savefigFiles_savefigEffects, savefigFiles_closeEffects]
  simp [savefigFiles]

theorem savefigFiles_eq_nil_of_all_midClean {tr : List Effect}
    (h : tr.all midClean = true) : savefigFiles tr = [] := by
  rw [savefigFiles, List.filterMap_eq_nil_iff]
  intro e he
  have := List.all_eq_true.mp h e he
  cases e <;> simp_all [midClean, isSavefigE]

theorem close_not_mem_of_all_midClean {tr : List Effect}
    (h : tr.all midClean = true) : Effect.close ∉ tr := by
  intro hc
  have := List.all_eq_true.mp h _ hc
  simp [midClean, isCloseE] at this

theorem configOk_of_all_midClean {tr : List Effect}
    (h : tr.all midClean = true) : ∀ e ∈ tr, configOk e = true := by
  intro e he
  have := List.all_eq_true.mp h e he
  simp [midClean] at this
  exact this.1.1

theorem foldl_optMin_isSome : ∀ (xs : List (Option Rat)) (a : Rat),
    (∀ m ∈ xs, m.isSome) → (xs.foldl optMin (some a)).isSome
  | [], _, _ => rfl
  | x :: xs, a, h => by
    obtain ⟨b, rfl⟩ := Option.isSome_iff_exists.mp (h x (by simp))
    exact foldl_optMin_isSome xs (min a b) (fun m hm => h m (by simp [hm]))

theorem foldl_optMax_isSome : ∀ (xs : List (Option Rat)) (a : Rat),
    (∀ m ∈ xs, m.isSome) → (xs.foldl optMax (some a)).isSome
  | [], _, _ => rfl
  | x :: xs, a, h => by
    obtain ⟨b, rfl⟩ := Option.isSome_iff_exists.mp (h x (by simp))
    exact foldl_optMax_isSome xs (max a b) (fun m hm => h m (by simp [hm]))

theorem npAmin_isSome {l : List (Option Rat)} (hne : l ≠ [])
    (hs : ∀ m ∈ l, m.isSome) : ∃ r, npAmin l = .ok (some r) := by
  match l, hne with
  | x :: xs, _ =>
    obtain ⟨a, rfl⟩ := Option.isSome_iff_exists.mp (hs x (by simp))
    have := foldl_optMin_isSome xs a (fun m hm => hs m (by simp [hm]))
    obtain ⟨r, hr⟩ := Option.isSome_iff_exists.mp this
    exact ⟨r, by simp [npAmin, hr]⟩

theorem npAmax_isSome {l : List (Option Rat)} (hne : l ≠ [])
    (hs : ∀ m ∈ l, m.isSome) : ∃ r, npAmax l = .ok (some r) := by
  match l, hne with
  | x :: xs, _ =>
    obtain ⟨a, rfl⟩ := Option.isSome_iff_exists.mp (hs x (by simp))
    have := foldl_optMax_isSome xs a (fun m hm => hs m (by simp [hm]))
    obtain ⟨r, hr⟩ := Option.isSome_iff_exists.mp this
    exact ⟨r, by simp [npAmax, hr]⟩

theorem plot_xtick_format_ok (cal : String) {minDays maxDays : List (Option Rat)}
    (k : Int) (h1 : minDays ≠ []) (h2 : ∀ m ∈ minDays, m.isSome)
    (h3 : maxDays ≠ []) (h4 : ∀ m ∈ maxDays, m.isSome) :
    plot_xtick_format cal minDays maxDays k = ([Effect.libCall "xtickFormat"], .ok ()) := by
  obtain ⟨r1, hr1⟩ := npAmin_isSome h1 h2
  obtain ⟨r2, hr2⟩ := npAmax_isSome h3 h4
  simp [plot_xtick_format, hr1, hr2, pyDateOfDays]

theorem npAmin_error {l : List (Option Rat)} {e : PyError}
    (h : npAmin l = .error e) :
    e = .valueError "zero-size array to reduction operation minimum which has no identity" := by
  cases l <;> simp [npAmin] at h
  exact h.symm

theorem npAmax_error {l : List (Option Rat)} {e : PyError}
    (h : npAmax l = .error e) :
    e = .valueError "zero-size array to reduction operation maximum which has no identity" := by
  cases l <;> simp [npAmax] at h
  exact h.symm

theorem pyDateOfDays_error {cal : String} {o : Option Rat} {e : PyError}
    (h : pyDateOfDays cal o = .error e) :
    e = .valueError "cannot convert float NaN to integer" := by
  cases o <;> simp [pyDateOfDays] at h
  exact h.symm

theorem plot_xtick_format_trace_cases (cal : String)
    (minDays maxDays : List (Option Rat)) (k : Int) :
    (plot_xtick_format cal minDays maxDays k).1 = [] ∨
    (plot_xtick_format cal minDays maxDays k).1 = [Effect.libCall "xtickFormat"] := by
  rw [plot_xtick_format]
  rcases npAmin minDays with e | mn
  · simp
  · rcases npAmax maxDays with e | mx
    · simp
    · rcases hd1 : pyDateOfDays cal mn with e | d1
      · simp [hd1]
      · rcases hd2 : pyDateOfDays cal mx with e | d2 <;> simp [hd1, hd2]

theorem plot_xtick_format_error (cal : String)
    (minDays maxDays : List (Option Rat)) (k : Int) {e : PyError}
    (h : (plot_xtick_format cal minDays maxDays k).2 = .error e) :
    e = .valueError "zero-size array to reduction operation minimum which has no identity" ∨
    e = .valueError "zero-size array to reduction operation maximum which has no identity" ∨
    e = .valueError "cannot convert float NaN to integer" := by
  rw [plot_xtick_format] at h
  rcases hmn : npAmin minDays with e1 | mn
  · simp [hmn] at h
    subst h
    exact Or.inl (npAmin_error hmn)
  · rcases hmx : npAmax maxDays with e2 | mx
    · simp [hmn, hmx] at h
      subst h
      exact Or.inr (Or.inl (npAmax_error hmx))
    · rcases hd1 : pyDateOfDays cal mn with e3 | d1
      · simp [hmn, hmx, hd1] at h
        subst h
        exact Or.inr (Or.inr (pyDateOfDays_error hd1))
      · rcases hd2 : pyDateOfDays cal mx with e4 | d2
        · simp [hmn, hmx, hd1, hd2] at h
          subst h
          exact Or.inr (Or.inr (pyDateOfDays_error hd2))
        · simp [hmn, hmx, hd1, hd2] at h

theorem zeroLineStep_ok_cases {y : Rat × Rat} {lm : Option (List (Rat × Option Rat))}
    {tr : List Effect} (h : zeroLineStep y lm = .ok tr) :
    tr = [] ∨ tr = [Effect.libCall "plotZeroLine"] := by
  rw [zeroLineStep.eq_def] at h
  split at h
  · rcases lm with _ | m
    · simp at h
    · simp at h
      tauto
  · simp at h
    tauto

theorem zeroLineStep_error {y : Rat × Rat} {lm : Option (List (Rat × Option Rat))}
    {e : PyError} (h : zeroLineStep y lm = .error e) : e = .nameError "mean" := by
  rw [zeroLineStep.eq_def] at h
  split at h
  · rcases lm with _ | m <;> simp at h
    exact h.symm
  · simp at h

theorem zeroLineStep_isSome_ok {y : Rat × Rat} {lm : Option (List (Rat × Option Rat))}
    (h : lm.isSome) : ∃ tr, zeroLineStep y lm = .ok tr := by
  obtain ⟨m, rfl⟩ := Option.isSome_iff_exists.mp h
  rw [zeroLineStep.eq_def]
  split <;> exact ⟨_, rfl⟩

theorem tsLoop_trace (c : String) (n : Nat) (s w l : List String) :
    ∀ (ds : List (Option DataSet)) (i : Nat) (acc : TsLoopAcc),
      ∃ k, (tsLoop c n s w l i ds acc).1.trace =
        acc.trace ++ List.replicate k (Effect.libCall c)
  | [], i, acc => ⟨0, by simp [tsLoop]⟩
  | none :: rest, i, acc => by
    rw [tsLoop]
    exact tsLoop_trace c n s w l rest (i + 1) acc
  | some ds :: rest, i, acc => by
    rw [tsLoop]
    rcases s.get? i with _ | st
    · exact ⟨0, by simp⟩
    · rcases w.get? i with _ | wd
      · exact ⟨0, by simp⟩
      · rcases l.get? i with _ | lg
        · exact ⟨0, by simp⟩
        · obtain ⟨k, hk⟩ := tsLoop_trace c n s w l rest (i + 1)
            { minDays := acc.minDays ++ [listMinO (ds.map Prod.fst)]
              maxDays := acc.maxDays ++ [listMaxO (ds.map Prod.fst)]
              lastMean := some ((ds.map Prod.fst).zip (rollingMeanCenter n (ds.map Prod.snd)))
              finite := acc.finite ++ (rollingMeanCenter n (ds.map Prod.snd)).filterMap id
              trace := acc.trace ++ [Effect.libCall c] }
          refine ⟨k + 1, ?_⟩
          rw [hk]
          simp [List.replicate_succ, List.append_assoc]

theorem tsLoop_error (c : String) (n : Nat) (s w l : List String) :
    ∀ (ds : List (Option DataSet)) (i : Nat) (acc : TsLoopAcc) (e : PyError),
      (tsLoop c n s w l i ds acc).2 = some e → e = .indexError
  | [], i, acc, e => by simp [tsLoop]
  | none :: rest, i, acc, e => by
    rw [tsLoop]
    exact tsLoop_error c n s w l rest (i + 1) acc e
  | some ds :: rest, i, acc, e => by
    rw [tsLoop]
    rcases s.get? i with _ | st
    · simp
      exact fun h => h.symm
    · rcases w.get? i with _ | wd
      · simp
        exact fun h => h.symm
      · rcases l.get? i with _ | lg
        · simp
          exact fun h => h.symm
        · exact tsLoop_error c n s w l rest (i + 1) _ e

theorem tsLoop_ok (c : String) (n : Nat) (s w l : List String) :
    ∀ (ds : List (Option DataSet)) (i : Nat) (acc : TsLoopAcc),
      i + ds.length ≤ s.length → i + ds.length ≤ w.length →
      i + ds.length ≤ l.length → (tsLoop c n s w l i ds acc).2 = none
  | [], i, acc, _, _, _ => by simp [tsLoop]
  | none :: rest, i, acc, h1, h2, h3 => by
    rw [tsLoop]
    exact tsLoop_ok c n s w l rest (i + 1) acc (by simp at h1 ⊢; omega)
      (by simp at h2 ⊢; omega) (by simp at h3 ⊢; omega)
  | some ds :: rest, i, acc, h1, h2, h3 => by
    rw [tsLoop]
    simp only [List.length_cons] at h1 h2 h3
    have hs : i < s.length := by omega
    have hw : i < w.length := by omega
    have hl : i < l.length := by omega
    rw [List.get?_eq_get hs, List.get?_eq_get hw, List.get?_eq_get hl]
    exact tsLoop_ok c n s w l rest (i + 1) _ (by omega) (by omega) (by omega)

theorem tsLoop_minDays_ne (c : String) (n : Nat) (s w l : List String) :
    ∀ (ds : List (Option DataSet)) (i : Nat) (acc : TsLoopAcc),
      ((∃ o ∈ ds, o ≠ none) ∨ acc.minDays ≠ []) →
      (tsLoop c n s w l i ds acc).1.minDays ≠ []
  | [], i, acc, h => by
    simp [tsLoop]
    rcases h with h | h
    · simp at h
    · exact h
  | none :: rest, i, acc, h => by
    rw [tsLoop]
    refine tsLoop_minDays_ne c n s w l rest (i + 1) acc ?_
    rcases h with h | h
    · rcases h with ⟨o, ho, hne⟩
      rcases ho with _ | ho
      · exact absurd rfl hne
      · exact Or.inl ⟨o, by assumption, hne⟩
    · exact Or.inr h
  | some ds :: rest, i, acc, h => by
    rw [tsLoop]
    rcases s.get? i with _ | st
    · simp
    · rcases w.get? i with _ | wd
      · simp
      · rcases l.get? i with _ | lg
        · simp
        · exact tsLoop_minDays_ne c n s w l rest (i + 1) _ (Or.inr (by simp))

theorem tsLoop_maxDays_ne (c : String) (n : Nat) (s w l : List String) :
    ∀ (ds : List (Option DataSet)) (i : Nat) (acc : TsLoopAcc),
      ((∃ o ∈ ds, o ≠ none) ∨ acc.maxDays ≠ []) →
      (tsLoop c n s w l i ds acc).1.maxDays ≠ []
  | [], i, acc, h => by
    simp [tsLoop]
    rcases h with h | h
    · simp at h
    · exact h
  | none :: rest, i, acc, h => by
    rw [tsLoop]
    refine tsLoop_maxDays_ne c n s w l rest (i + 1) acc ?_
    rcases h with h | h
    · rcases h with ⟨o, ho, hne⟩
      rcases ho with _ | ho
      · exact absurd rfl hne
      · exact Or.inl ⟨o, by assumption, hne⟩
    · exact Or.inr h
  | some ds :: rest, i, acc, h => by
    rw [tsLoop]
    rcases s.get? i with _ | st
    · simp
    · rcases w.get? i with _ | wd
      · simp
      · rcases l.get? i with _ | lg
        · simp
        · exact tsLoop_maxDays_ne c n s w l rest (i + 1) _ (Or.inr (by simp))

theorem tsLoop_lastMean (c : String) (n : Nat) (s w l : List String) :
    ∀ (ds : List (Option DataSet)) (i : Nat) (acc : TsLoopAcc),
      ((∃ o ∈ ds, o ≠ none) ∨ acc.lastMean.isSome) →
      (tsLoop c n s w l i ds acc).1.lastMean.isSome
  | [], i, acc, h => by
    simp [tsLoop]
    rcases h with h | h
    · simp at h
    · simpa using h
  | none :: rest, i, acc, h => by
    rw [tsLoop]
    refine tsLoop_lastMean c n s w l rest (i + 1) acc ?_
    rcases h with h | h
    · rcases h with ⟨o, ho, hne⟩
      rcases ho with _ | ho
      · exact absurd rfl hne
      · exact Or.inl ⟨o, by assumption, hne⟩
    · exact Or.inr h
  | some ds :: rest, i, acc, h => by
    rw [tsLoop]
    rcases s.get? i with _ | st
    · simp
    · rcases w.get? i with _ | wd
      · simp
      · rcases l.get? i with _ | lg
        · simp
        · exact tsLoop_lastMean c n s w l rest (i + 1) _ (Or.inr (by simp))

theorem listMinO_isSome {x : List Rat} (h : x ≠ []) : (listMinO x).isSome := by
  cases x <;> simp [listMinO] at h ⊢

theorem listMaxO_isSome {x : List Rat} (h : x ≠ []) : (listMaxO x).isSome := by
  cases x <;> simp [listMaxO] at h ⊢

theorem tsLoop_minDays_some (c : String) (n : Nat) (s w l : List String) :
    ∀ (ds : List (Option DataSet)) (i : Nat) (acc : TsLoopAcc),
      (∀ o ∈ ds, ∀ x : DataSet, o = some x → x ≠ []) →
      (∀ m ∈ acc.minDays, m.isSome) →
      ∀ m ∈ (tsLoop c n s w l i ds acc).1.minDays, m.isSome
  | [], i, acc, _, hacc => by simpa [tsLoop] using hacc
  | none :: rest, i, acc, h, hacc => by
    rw [tsLoop]
    exact tsLoop_minDays_some c n s w l rest (i + 1) acc
      (fun o ho => h o (by simp [ho])) hacc
  | some ds :: rest, i, acc, h, hacc => by
    have hds : ds ≠ [] := h (some ds) (by simp) ds rfl
    have hext : ∀ m ∈ acc.minDays ++ [listMinO (ds.map Prod.fst)], m.isSome := by
      intro m hm
      rcases List.mem_append.mp hm with hm | hm
      · exact hacc m hm
      · simp at hm
        subst hm
        exact listMinO_isSome (by simpa using hds)
    rw [tsLoop]
    rcases s.get? i with _ | st
    · simpa using hext
    · rcases w.get? i with _ | wd
      · simpa using hext
      · rcases l.get? i with _ | lg
        · simpa using hext
        · exact tsLoop_minDays_some c n s w l rest (i + 1) _
            (fun o ho => h o (by simp [ho])) hext

theorem tsLoop_maxDays_some (c : String) (n : Nat) (s w l : List String) :
    ∀ (ds : List (Option DataSet)) (i : Nat) (acc : TsLoopAcc),
      (∀ o ∈ ds, ∀ x : DataSet, o = some x → x ≠ []) →
      (∀ m ∈ acc.maxDays, m.isSome) →
      ∀ m ∈ (tsLoop c n s w l i ds acc).1.maxDays, m.isSome
  | [], i, acc, _, hacc => by simpa [tsLoop] using hacc
  | none :: rest, i, acc, h, hacc => by
    rw [tsLoop]
    exact tsLoop_maxDays_some c n s w l rest (i + 1) acc
      (fun o ho => h o (by simp [ho])) hacc
  | some ds :: rest, i, acc, h, hacc => by
    have hds : ds ≠ [] := h (some ds) (by simp) ds rfl
    have hext : ∀ m ∈ acc.maxDays ++ [listMaxO (ds.map Prod.fst)], m.isSome := by
      intro m hm
      rcases List.mem_append.mp hm with hm | hm
      · exact hacc m hm
      · simp at hm
        subst hm
        exact listMaxO_isSome (by simpa using hds)
    rw [tsLoop]
    rcases s.get? i with _ | st
    · simpa using hext
    · rcases w.get? i with _ | wd
      · simpa using hext
      · rcases l.get? i with _ | lg
        · simpa using hext
        · exact tsLoop_maxDays_some c n s w l rest (i + 1) _
            (fun o ho => h o (by simp [ho])) hext

theorem p1Loop_trace (flds : List (List Rat)) (errs : List (Option (List Rat)))
    (colors widths legends : List String) :
    ∀ (xs : List (Option (List Rat))) (i : Nat) (tr : List Effect),
      ∃ extra, (p1Loop flds errs colors widths legends i xs tr).1 = tr ++ extra ∧
        ∀ e ∈ extra, e = Effect.libCall "plot" ∨ e = Effect.libCall "fillBetween"
  | [], i, tr => ⟨[], by simp [p1Loop]⟩
  | x :: rest, i, tr => by
    rw [p1Loop]
    rcases flds.get? i with _ | fld
    · exact ⟨[], by simp⟩
    · rcases errs.get? i with _ | errO
      · exact ⟨[], by simp⟩
      · rcases x with _ | xa
        · exact p1Loop_trace flds errs colors widths legends rest (i + 1) tr
        · rcases colors.get? i with _ | c1
          · exact ⟨[], by simp⟩
          · rcases widths.get? i with _ | w1
            · exact ⟨[], by simp⟩
            · rcases legends.get? i with _ | l1
              · exact ⟨[], by simp⟩
              · rcases errO with _ | err
                · obtain ⟨extra, he, hall⟩ := p1Loop_trace flds errs colors widths
                    legends rest (i + 1) (tr ++ [Effect.libCall "plot"])
                  refine ⟨[Effect.libCall "plot"] ++ extra, by simp [he], ?_⟩
                  intro e hem
                  rcases List.mem_append.mp hem with hem | hem
                  · simp at hem
                    subst hem
                    exact Or.inl rfl
                  · exact hall e hem
                · cases hb : pyBroadcastOk fld err
                  · refine ⟨[Effect.libCall "plot"], ?_, by simp⟩
                    simp [hb]
                  · obtain ⟨extra, he, hall⟩ := p1Loop_trace flds errs colors widths
                      legends rest (i + 1) (tr ++ [Effect.libCall "plot",
                        Effect.libCall "fillBetween", Effect.libCall "fillBetween"])
                    refine ⟨[Effect.libCall "plot", Effect.libCall "fillBetween",
                      Effect.libCall "fillBetween"] ++ extra, ?_, ?_⟩
                    · simp [hb, he]
                    · intro e hem
                      rcases List.mem_append.mp hem with hem | hem
                      · simp at hem
                        tauto
                      · exact hall e hem

theorem p1Loop_error (flds : List (List Rat)) (errs : List (Option (List Rat)))
    (colors widths legends : List String) :
    ∀ (xs : List (Option (List Rat))) (i : Nat) (tr : List Effect) (e : PyError),
      (p1Loop flds errs colors widths legends i xs tr).2 = some e →
      e = .indexError ∨ e = .valueError "operands could not be broadcast together"
  | [], i, tr, e => by simp [p1Loop]
  | x :: rest, i, tr, e => by
    rw [p1Loop]
    rcases flds.get? i with _ | fld
    · simp
      exact fun h => Or.inl h.symm
    · rcases errs.get? i with _ | errO
      · simp
        exact fun h => Or.inl h.symm
      · rcases x with _ | xa
        · exact p1Loop_error flds errs colors widths legends rest (i + 1) tr e
        · rcases colors.get? i with _ | c1
          · simp
            exact fun h => Or.inl h.symm
          · rcases widths.get? i with _ | w1
            · simp
              exact fun h => Or.inl h.symm
            · rcases legends.get? i with _ | l1
              · simp
                exact fun h => Or.inl h.symm
              · rcases errO with _ | err
                · exact p1Loop_error flds errs colors widths legends rest (i + 1) _ e
                · cases hb : pyBroadcastOk fld err
                  · intro h
                    simp [hb] at h
                    exact Or.inr h.symm
                  · intro h
                    simp only [hb] at h
                    refine p1Loop_error flds errs colors widths legends rest (i + 1)
                      (tr ++ [Effect.libCall "plot", Effect.libCall "fillBetween",
                        Effect.libCall "fillBetween"]) e ?_
                    simpa using h

theorem p1Loop_ok (flds : List (List Rat)) (errs : List (Option (List Rat)))
    (colors widths legends : List String) :
    ∀ (xs : List (Option (List Rat))) (i : Nat) (tr : List Effect),
      i + xs.length ≤ flds.length → i + xs.length ≤ errs.length →
      i + xs.length ≤ colors.length → i + xs.length ≤ widths.length →
      i + xs.length ≤ legends.length →
      (∀ j, i ≤ j → j < i + xs.length → ∀ f er, flds.get? j = some f →
        errs.get? j = some (some er) → pyBroadcastOk f er = true) →
      (p1Loop flds errs colors widths legends i xs tr).2 = none
  | [], i, tr, _, _, _, _, _, _ => by simp [p1Loop]
  | x :: rest, i, tr, h1, h2, h3, h4, h5, hb => by
    rw [p1Loop]
    simp only [List.length_cons] at h1 h2 h3 h4 h5
    have hb' : ∀ j, i + 1 ≤ j → j < i + 1 + rest.length → ∀ f er,
        flds.get? j = some f → errs.get? j = some (some er) →
        pyBroadcastOk f er = true := by
      intro j hj1 hj2 f er hjf hje
      refine hb j (by omega) (by simp only [List.length_cons]; omega) f er hjf hje
    rcases hgf : flds.get? i with _ | fld
    · rw [List.get?_eq_none] at hgf
      omega
    · simp only [hgf]
      rcases hge : errs.get? i with _ | errO
      · rw [List.get?_eq_none] at hge
        omega
      · simp only [hge]
        rcases x with _ | xa
        · exact p1Loop_ok flds errs colors widths legends rest (i + 1) tr
            (by omega) (by omega) (by omega) (by omega) (by omega) hb'
        · rcases hgc : colors.get? i with _ | c1
          · rw [List.get?_eq_none] at hgc
            omega
          · rcases hgw : widths.get? i with _ | w1
            · rw [List.get?_eq_none] at hgw
              omega
            · rcases hgl : legends.get? i with _ | l1
              · rw [List.get?_eq_none] at hgl
                omega
              · simp only [hgc, hgw, hgl]
                rcases errO with _ | err
                · exact p1Loop_ok flds errs colors widths legends rest (i + 1) _
                    (by omega) (by omega) (by omega) (by omega) (by omega) hb'
                · have hbi : pyBroadcastOk fld err = true :=
                    hb i (le_refl i) (by simp only [List.length_cons]; omega) fld err
                      hgf (by rw [hge])
                  simp only [hbi, if_true]
                  exact p1Loop_ok flds errs colors widths legends rest (i + 1) _
                    (by omega) (by omega) (by omega) (by omega) (by omega) hb'

theorem midClean_of_sideOk {e : Effect} (h : sideOk e = true) : midClean e = true := by
  simp [sideOk] at h
  exact h.1

theorem all_midClean_of_all_sideOk {tr : List Effect}
    (h : tr.all sideOk = true) : tr.all midClean = true := by
  rw [List.all_eq_true] at h ⊢
  exact fun e he => midClean_of_sideOk (h e he)

theorem figureDpis_eq_nil_of_all_sideOk {tr : List Effect}
    (h : tr.all sideOk = true) : figureDpis tr = [] := by
  rw [figureDpis, List.filterMap_eq_nil_iff]
  intro e he
  have := List.all_eq_true.mp h e he
  cases e <;> simp_all [sideOk, midClean, isFigureE]

theorem figureSizes_eq_nil_of_all_sideOk {tr : List Effect}
    (h : tr.all sideOk = true) : figureSizes tr = [] := by
  rw [figureSizes, List.filterMap_eq_nil_iff]
  intro e he
  have := List.all_eq_true.mp h e he
  cases e <;> simp_all [sideOk, midClean, isFigureE]

theorem resolveDpi_sideOk (cfg : PlotConfig) (o : Option Int) :
    (resolveDpi cfg o).1.all sideOk = true := by
  cases o <;> simp [resolveDpi, sideOk, midClean, configOk, configReadMethods,
    isSavefigE, isCloseE, isFigureE]

theorem resolveTitleFontSize_sideOk (cfg : PlotConfig) (o : Option String) :
    (resolveTitleFontSize cfg o).1.all sideOk = true := by
  cases o <;> simp [resolveTitleFontSize, sideOk, midClean, configOk,
    configReadMethods, isSavefigE, isCloseE, isFigureE]

theorem titleEffects_sideOk (t : Option String) (sz : String) :
    (titleEffects t sz).all sideOk = true := by
  cases t <;> simp [titleEffects, sideOk, midClean, configOk, isSavefigE,
    isCloseE, isFigureE]

theorem optLib_sideOk {α : Type} (o : Option α) (s : String) :
    (optLib o s).all sideOk = true := by
  cases o <;> simp [optLib, sideOk, midClean, configOk, isSavefigE,
    isCloseE, isFigureE]

theorem libCall_sideOk (s : String) : sideOk (Effect.libCall s) = true := by
  simp [sideOk, midClean, configOk, isSavefigE, isCloseE, isFigureE]

theorem configRead_sideOk (m sec opt : String) (hm : m ∈ configReadMethods) :
    sideOk (Effect.configRead m sec opt) = true := by
  simp [sideOk, midClean, configOk, isSavefigE, isCloseE, isFigureE, hm]

theorem setTitle_sideOk (sz : String) : sideOk (Effect.setTitle sz) = true := by
  simp [sideOk, midClean, configOk, isSavefigE, isCloseE, isFigureE]

theorem suptitle_sideOk (sz : String) : sideOk (Effect.suptitle sz) = true := by
  simp [sideOk, midClean, configOk, isSavefigE, isCloseE, isFigureE]

theorem subplot_sideOk (c : Nat) : sideOk (Effect.subplot c) = true := by
  simp [sideOk, midClean, configOk, isSavefigE, isCloseE, isFigureE]

theorem figure_midClean (w h : Rat) (d : Int) :
    midClean (Effect.figure w h d) = true := by
  simp [midClean, configOk, isSavefigE, isCloseE]

theorem finishPlot_snd (cfg : PlotConfig) (fo : Option String) (d : Int)
    (tr : List Effect) : (finishPlot cfg fo d tr).2 = .ok () := rfl

theorem close_mem_finishPlot (cfg : PlotConfig) (fo : Option String) (d : Int)
    (tr : List Effect) :
    Effect.close ∈ (finishPlot cfg fo d tr).1 ↔
      Effect.close ∈ tr ∨ cfg.displayToScreen = false := by
  simp only [finishPlot]
  cases hD : cfg.displayToScreen <;> cases fo <;>
    simp [closeEffects, savefigEffects, List.mem_append]

theorem finishPlot_getLast_close (cfg : PlotConfig) (fo : Option String)
    (d : Int) (tr : List Effect) (h : cfg.displayToScreen = false) :
    (finishPlot cfg fo d tr).1.getLast? = some Effect.close := by
  simp only [finishPlot, h, closeEffects, if_false, Bool.false_eq_true]
  rw [List.append_assoc, List.append_assoc]
  simp [List.getLast?_append]

theorem configOk_finishPlot (cfg : PlotConfig) (fo : Option String) (d : Int)
    (tr : List Effect) (h : ∀ e ∈ tr, configOk e = true) :
    ∀ e ∈ (finishPlot cfg fo d tr).1, configOk e = true := by
  intro e he
  simp only [finishPlot, List.mem_append] at he
  rcases he with ((he | he) | he) | he
  · exact h e he
  · cases fo <;> simp [savefigEffects] at he <;> simp [he, configOk]
  · simp at he
    simp [he, configOk, configReadMethods]
  · cases hD : cfg.displayToScreen <;> simp [closeEffects, hD] at he <;>
      simp [he, configOk]

theorem figureDpis_figure_singleton (w h : Rat) (d : Int) :
    figureDpis [Effect.figure w h d] = [d] := by
  simp [figureDpis]

theorem ts_shape (cfg : PlotConfig) (a : TsArgs) :
    (∃ tr, timeseries_analysis_plot cfg a =
        finishPlot cfg a.fileout (resolveDpi cfg a.dpi).2 tr ∧
      tr.all midClean = true ∧ figureDpis tr = [(resolveDpi cfg a.dpi).2] ∧
      (a.dpi = none → Effect.configRead "getint" "plot" "dpi" ∈ tr) ∧
      (a.titleFontSize = none → Effect.configRead "get" "plot" "titleFontSize" ∈ tr)) ∨
    (∃ tr e, timeseries_analysis_plot cfg a = (tr, .error e) ∧
      tr.all midClean = true ∧
      (e = .indexError ∨ e = .nameError "mean" ∨
       e = .valueError "zero-size array to reduction operation minimum which has no identity" ∨
       e = .valueError "zero-size array to reduction operation maximum which has no identity" ∨
       e = .valueError "cannot convert float NaN to integer")) := by
  obtain ⟨k, hk⟩ := tsLoop_trace "plot" a.N a.lineStyles a.lineWidths a.legendText
    a.dsvalues 0 ⟨[], [], none, [], []⟩
  simp only [timeseries_analysis_plot]
  set L := tsLoop "plot" a.N a.lineStyles a.lineWidths a.legendText 0 a.dsvalues
    ⟨[], [], none, [], []⟩ with hL
  simp only at hk
  have hLtrace : L.1.trace.all sideOk = true := by
    rw [hk]
    exact all_replicate_true sideOk _ (libCall_sideOk "plot") k
  have hA := all_midClean_of_all_sideOk (resolveDpi_sideOk cfg a.dpi)
  have hB := all_midClean_of_all_sideOk hLtrace
  have hC := all_midClean_of_all_sideOk (resolveTitleFontSize_sideOk cfg a.titleFontSize)
  have hDf := all_midClean_of_all_sideOk (titleEffects_sideOk a.title
    (resolveTitleFontSize cfg a.titleFontSize).2)
  have hE := all_midClean_of_all_sideOk (optLib_sideOk a.xlabel "xlabel")
  have hF := all_midClean_of_all_sideOk (optLib_sideOk a.ylabel "ylabel")
  have hGd := figureDpis_eq_nil_of_all_sideOk (resolveDpi_sideOk cfg a.dpi)
  have hHd := figureDpis_eq_nil_of_all_sideOk hLtrace
  have hId := figureDpis_eq_nil_of_all_sideOk (resolveTitleFontSize_sideOk cfg a.titleFontSize)
  have hJd := figureDpis_eq_nil_of_all_sideOk (titleEffects_sideOk a.title
    (resolveTitleFontSize cfg a.titleFontSize).2)
  have hKd := figureDpis_eq_nil_of_all_sideOk (optLib_sideOk a.xlabel "xlabel")
  have hLd := figureDpis_eq_nil_of_all_sideOk (optLib_sideOk a.ylabel "ylabel")
  have hdpiMem : a.dpi = none → Effect.configRead "getint" "plot" "dpi" ∈
      (resolveDpi cfg a.dpi).1 := by
    intro h
    simp [h, resolveDpi]
  have htfsMem : a.titleFontSize = none → Effect.configRead "get" "plot" "titleFontSize" ∈
      (resolveTitleFontSize cfg a.titleFontSize).1 := by
    intro h
    simp [h, resolveTitleFontSize]
  rcases hLp : L.2 with _ | e
  · simp only [hLp]
    rcases hz : zeroLineStep (ylimModel L.1.finite) L.1.lastMean with e | zTr
    · simp only [hz]
      refine Or.inr ⟨_, e, rfl, ?_, Or.inr (Or.inl (zeroLineStep_error hz))⟩
      simp [List.all_append, hA, hB, hC, midClean, configOk, configReadMethods,
        isSavefigE, isCloseE]
    · simp only [hz]
      have hz2 : zTr.all midClean = true := by
        rcases zeroLineStep_ok_cases hz with h | h <;> subst h <;>
          simp [midClean, configOk, isSavefigE, isCloseE]
      have hz3 : figureDpis zTr = [] := by
        rcases zeroLineStep_ok_cases hz with h | h <;> subst h <;> simp [figureDpis]
      set X := plot_xtick_format a.calendar L.1.minDays L.1.maxDays a.maxXTicks with hX
      have hx1 : X.1.all midClean = true := by
        rcases plot_xtick_format_trace_cases a.calendar L.1.minDays L.1.maxDays
          a.maxXTicks with h | h <;> rw [← hX] at h <;> rw [h] <;>
          simp [midClean, configOk, isSavefigE, isCloseE]
      have hx2 : figureDpis X.1 = [] := by
        rcases plot_xtick_format_trace_cases a.calendar L.1.minDays L.1.maxDays
          a.maxXTicks with h | h <;> rw [← hX] at h <;> rw [h] <;> simp [figureDpis]
      rcases hxr : X.2 with e | u
      · simp only [hxr]
        refine Or.inr ⟨_, e, rfl, ?_, ?_⟩
        · simp [List.all_append, hA, hB, hC, hz2, hx1, midClean, configOk,
            configReadMethods, isSavefigE, isCloseE]
        · have := plot_xtick_format_error a.calendar L.1.minDays L.1.maxDays
            a.maxXTicks (by rw [← hX]; exact hxr)
          tauto
      · simp only [hxr]
        refine Or.inl ⟨_, rfl, ?_, ?_, ?_, ?_⟩
        · simp [List.all_append, hA, hB, hC, hDf, hE, hF, hz2, hx1, midClean,
            configOk, configReadMethods, isSavefigE, isCloseE]
        · simp only [figureDpis_append, figureDpis_figure_singleton, hGd, hHd,
            hId, hJd, hKd, hLd, hz3, hx2]
          simp [figureDpis]
        · intro h
          simp [List.mem_append, hdpiMem h]
        · intro h
          simp [List.mem_append, htfsMem h]
  · simp only [hLp]
    refine Or.inr ⟨_, e, rfl, ?_, Or.inl ?_⟩
    · simp [List.all_append, hA, hB, midClean, configOk, configReadMethods,
        isSavefigE, isCloseE]
    · refine tsLoop_error "plot" a.N a.lineStyles a.lineWidths a.legendText
        a.dsvalues 0 ⟨[], [], none, [], []⟩ e ?_
      rw [← hL]
      exact hLp

theorem tspolar_shape (cfg : PlotConfig) (a : TsPolarArgs) :
    (∃ tr, timeseries_analysis_plot_polar cfg a =
        finishPlot cfg a.fileout (resolveDpi cfg a.dpi).2 tr ∧
      tr.all midClean = true ∧ figureDpis tr = [(resolveDpi cfg a.dpi).2] ∧
      (a.dpi = none → Effect.configRead "getint" "plot" "dpi" ∈ tr) ∧
      (a.titleFontSize = none → Effect.configRead "get" "plot" "titleFontSize" ∈ tr)) ∨
    (∃ tr e, timeseries_analysis_plot_polar cfg a = (tr, .error e) ∧
      tr.all midClean = true ∧ e = .indexError) := by
  obtain ⟨k, hk⟩ := tsLoop_trace "polar" a.N a.lineStyles a.lineWidths a.legendText
    a.dsvalues 0 ⟨[], [], none, [], []⟩
  simp only [timeseries_analysis_plot_polar]
  set L := tsLoop "polar" a.N a.lineStyles a.lineWidths a.legendText 0 a.dsvalues
    ⟨[], [], none, [], []⟩ with hL
  simp only at hk
  have hLtrace : L.1.trace.all sideOk = true := by
    rw [hk]
    exact all_replicate_true sideOk _ (libCall_sideOk "polar") k
  have hA := all_midClean_of_all_sideOk (resolveDpi_sideOk cfg a.dpi)
  have hB := all_midClean_of_all_sideOk hLtrace
  have hC := all_midClean_of_all_sideOk (resolveTitleFontSize_sideOk cfg a.titleFontSize)
  have hDf := all_midClean_of_all_sideOk (titleEffects_sideOk a.title
    (resolveTitleFontSize cfg a.titleFontSize).2)
  have hGd := figureDpis_eq_nil_of_all_sideOk (resolveDpi_sideOk cfg a.dpi)
  have hHd := figureDpis_eq_nil_of_all_sideOk hLtrace
  have hId := figureDpis_eq_nil_of_all_sideOk (resolveTitleFontSize_sideOk cfg a.titleFontSize)
  have hJd := figureDpis_eq_nil_of_all_sideOk (titleEffects_sideOk a.title
    (resolveTitleFontSize cfg a.titleFontSize).2)
  have hdpiMem : a.dpi = none → Effect.configRead "getint" "plot" "dpi" ∈
      (resolveDpi cfg a.dpi).1 := by
    intro h
    simp [h, resolveDpi]
  have htfsMem : a.titleFontSize = none → Effect.configRead "get" "plot" "titleFontSize" ∈
      (resolveTitleFontSize cfg a.titleFontSize).1 := by
    intro h
    simp [h, resolveTitleFontSize]
  rcases hLp : L.2 with _ | e
  · simp only [hLp]
    refine Or.inl ⟨_, rfl, ?_, ?_, ?_, ?_⟩
    · simp [List.all_append, hA, hB, hC, hDf, midClean, configOk,
        configReadMethods, isSavefigE, isCloseE]
    · simp only [figureDpis_append, figureDpis_figure_singleton, hGd, hHd, hId, hJd]
      simp [figureDpis]
    · intro h
      simp [List.mem_append, hdpiMem h]
    · intro h
      simp [List.mem_append, htfsMem h]
  · simp only [hLp]
    refine Or.inr ⟨_, e, rfl, ?_, ?_⟩
    · simp [List.all_append, hA, hB, midClean, configOk, configReadMethods,
        isSavefigE, isCloseE]
    · refine tsLoop_error "polar" a.N a.lineStyles a.lineWidths a.legendText
        a.dsvalues 0 ⟨[], [], none, [], []⟩ e ?_
      rw [← hL]
      exact hLp

theorem polarcomp_shape (cfg : PlotConfig) (a : PolarCompArgs) :
    ∃ tr, plot_polar_comparison cfg a =
        finishPlot cfg a.fileout (resolveDpi cfg a.dpi).2 tr ∧
      tr.all midClean = true ∧ figureDpis tr = [(resolveDpi cfg a.dpi).2] ∧
      (a.dpi = none → Effect.configRead "getint" "plot" "dpi" ∈ tr) ∧
      (a.title ≠ none → a.titleFontSize = none →
        Effect.configRead "get" "plot" "titleFontSize" ∈ tr) ∧
      (a.figsize = none → figureSizes tr =
        [if a.vertical then ((8 : Rat), (22 : Rat)) else ((22 : Rat), (8.5 : Rat))]) ∧
      subplotCodes tr = (if a.vertical then [311, 312, 313] else [131, 132, 133]) := by
  rcases ht : a.title with _ | ttl <;> rcases hts : a.titleFontSize with _ | tfs <;>
    rcases hfs : a.figsize with _ | fs <;> cases hv : a.vertical <;>
    rcases hd : a.dpi with _ | dv <;>
    refine ⟨_, by simp only [plot_polar_comparison, ht, hts, hfs, hv, hd]; rfl,
      ?_, ?_, ?_, ?_, ?_, ?_⟩ <;>
    simp [List.all_append, resolveDpi, resolveTitleFontSize, figureDpis,
      figureSizes, subplotCodes, midClean, configOk, configReadMethods,
      isSavefigE, isCloseE, ht, hts, hfs, hv, hd]

theorem globalcomp_shape (cfg : PlotConfig) (a : GlobalCompArgs) :
    ∃ tr, plot_global_comparison cfg a =
        finishPlot cfg a.fileout (resolveDpi cfg a.dpi).2 tr ∧
      tr.all midClean = true ∧ figureDpis tr = [(resolveDpi cfg a.dpi).2] ∧
      (a.dpi = none → Effect.configRead "getint" "plot" "dpi" ∈ tr) ∧
      (a.title ≠ none → a.titleFontSize = none →
        Effect.configRead "get" "plot" "titleFontSize" ∈ tr) := by
  rcases ht : a.title with _ | ttl <;> rcases hts : a.titleFontSize with _ | tfs <;>
    rcases hd : a.dpi with _ | dv <;>
    refine ⟨_, by simp only [plot_global_comparison, ht, hts, hd]; rfl,
      ?_, ?_, ?_, ?_⟩ <;>
    simp [List.all_append, resolveDpi, resolveTitleFontSize, figureDpis,
      midClean, configOk, configReadMethods, isSavefigE, isCloseE, ht, hts, hd]

theorem p1_shape (cfg : PlotConfig) (a : Plot1DArgs) :
    (∃ tr, plot_1D cfg a = finishPlot cfg a.fileout (resolveDpi cfg a.dpi).2 tr ∧
      tr.all midClean = true ∧ figureDpis tr = [(resolveDpi cfg a.dpi).2] ∧
      (a.dpi = none → Effect.configRead "getint" "plot" "dpi" ∈ tr)) ∨
    (∃ tr e, plot_1D cfg a = (tr, .error e) ∧ tr.all midClean = true ∧
      (e = .indexError ∨ e = .nameError "dsIndex" ∨
       e = .valueError "operands could not be broadcast together")) := by
  obtain ⟨extra, he, hall⟩ := p1Loop_trace a.fieldArrays a.errArrays a.lineColors
    a.lineWidths a.legendText a.xArrays 0 []
  simp only [plot_1D]
  set L := p1Loop a.fieldArrays a.errArrays a.lineColors a.lineWidths a.legendText
    0 a.xArrays [] with hL
  simp only [List.nil_append] at he
  have hLside : L.1.all sideOk = true := by
    rw [he, List.all_eq_true]
    intro e hem
    rcases hall e hem with h | h <;> subst h <;> exact libCall_sideOk _
  have hB := all_midClean_of_all_sideOk hLside
  have hHd := figureDpis_eq_nil_of_all_sideOk hLside
  have hA := all_midClean_of_all_sideOk (resolveDpi_sideOk cfg a.dpi)
  have hGd := figureDpis_eq_nil_of_all_sideOk (resolveDpi_sideOk cfg a.dpi)
  have hdpiMem : a.dpi = none → Effect.configRead "getint" "plot" "dpi" ∈
      (resolveDpi cfg a.dpi).1 := by
    intro h
    simp [h, resolveDpi]
  have hDf := all_midClean_of_all_sideOk (titleEffects_sideOk a.title cfg.titleFontSize)
  have hJd := figureDpis_eq_nil_of_all_sideOk (titleEffects_sideOk a.title cfg.titleFontSize)
  have hE1 := all_midClean_of_all_sideOk (optLib_sideOk a.xlabel "xlabel")
  have hE2 := all_midClean_of_all_sideOk (optLib_sideOk a.ylabel "ylabel")
  have hE3 := all_midClean_of_all_sideOk (optLib_sideOk a.xLim "xlim")
  have hE4 := all_midClean_of_all_sideOk (optLib_sideOk a.yLim "ylim")
  have hK1 := figureDpis_eq_nil_of_all_sideOk (optLib_sideOk a.xlabel "xlabel")
  have hK2 := figureDpis_eq_nil_of_all_sideOk (optLib_sideOk a.ylabel "ylabel")
  have hK3 := figureDpis_eq_nil_of_all_sideOk (optLib_sideOk a.xLim "xlim")
  have hK4 := figureDpis_eq_nil_of_all_sideOk (optLib_sideOk a.yLim "ylim")
  have hinv1 : (if a.invertYAxis then [Effect.libCall "invertYaxis"] else []).all
      midClean = true := by
    split <;> simp [midClean, configOk, isSavefigE, isCloseE]
  have hinv2 : figureDpis (if a.invertYAxis then [Effect.libCall "invertYaxis"]
      else []) = [] := by
    split <;> simp [figureDpis]
  rcases hLp : L.2 with _ | e
  · simp only [hLp]
    rcases hx : a.xArrays with _ | ⟨x0, xs⟩
    · simp only [hx]
      refine Or.inr ⟨_, .nameError "dsIndex", rfl, ?_, Or.inr (Or.inl rfl)⟩
      simp [List.all_append, hA, hB, midClean, configOk, isSavefigE, isCloseE]
    · simp only [hx]
      have hleg1 : (if (x0 :: xs).length - 1 > 0 then [Effect.libCall "legend"]
          else []).all midClean = true := by
        split <;> simp [midClean, configOk, isSavefigE, isCloseE]
      have hleg2 : figureDpis (if (x0 :: xs).length - 1 > 0
          then [Effect.libCall "legend"] else []) = [] := by
        split <;> simp [figureDpis]
      refine Or.inl ⟨_, rfl, ?_, ?_, ?_⟩
      · simp [List.all_append, hA, hB, hDf, hE1, hE2, hE3, hE4, hinv1, hleg1,
          midClean, configOk, configReadMethods, isSavefigE, isCloseE]
      · simp only [figureDpis_append, figureDpis_figure_singleton, hGd, hHd,
          hJd, hK1, hK2, hK3, hK4, hinv2, hleg2]
        simp [figureDpis]
      · intro h
        simp [List.mem_append, hdpiMem h]
  · simp only [hLp]
    refine Or.inr ⟨_, e, rfl, ?_, ?_⟩
    · simp [List.all_append, hA, hB, midClean, configOk, isSavefigE, isCloseE]
    · have := p1Loop_error a.fieldArrays a.errArrays a.lineColors a.lineWidths
        a.legendText a.xArrays 0 [] e (by rw [← hL]; exact hLp)
      tauto

theorem vert_shape (cfg : PlotConfig) (a : VertArgs) :
    (∃ tr, plot_vertical_section cfg a =
        finishPlot cfg a.fileout (resolveDpi cfg a.dpi).2 tr ∧
      tr.all midClean = true ∧ figureDpis tr = [(resolveDpi cfg a.dpi).2] ∧
      (a.dpi = none → Effect.configRead "getint" "plot" "dpi" ∈ tr)) ∨
    (∃ tr e, plot_vertical_section cfg a = (tr, .error e) ∧ tr.all midClean = true ∧
      (e = .valueError "size mismatch between xArray and fieldArray" ∨
       e = .valueError "size mismatch between depthArray and fieldArray" ∨
       e = .indexError)) := by
  have hA := all_midClean_of_all_sideOk (resolveDpi_sideOk cfg a.dpi)
  have hGd := figureDpis_eq_nil_of_all_sideOk (resolveDpi_sideOk cfg a.dpi)
  have hdpiMem : a.dpi = none → Effect.configRead "getint" "plot" "dpi" ∈
      (resolveDpi cfg a.dpi).1 := by
    intro h
    simp [h, resolveDpi]
  have hO1 := all_midClean_of_all_sideOk (optLib_sideOk a.colorbarLevels "BoundaryNorm")
  have hO2 := all_midClean_of_all_sideOk (optLib_sideOk a.contourLevels "contour")
  have hO3 := all_midClean_of_all_sideOk (optLib_sideOk a.colorbarLabel "cbarSetLabel")
  have hO4 := all_midClean_of_all_sideOk (titleEffects_sideOk a.title cfg.titleFontSize)
  have hO5 := all_midClean_of_all_sideOk (optLib_sideOk a.xlabel "xlabel")
  have hO6 := all_midClean_of_all_sideOk (optLib_sideOk a.ylabel "ylabel")
  have hO7 := all_midClean_of_all_sideOk (optLib_sideOk a.xLim "xlim")
  have hO8 := all_midClean_of_all_sideOk (optLib_sideOk a.yLim "ylim")
  have hN1 := figureDpis_eq_nil_of_all_sideOk (optLib_sideOk a.colorbarLevels "BoundaryNorm")
  have hN2 := figureDpis_eq_nil_of_all_sideOk (optLib_sideOk a.contourLevels "contour")
  have hN3 := figureDpis_eq_nil_of_all_sideOk (optLib_sideOk a.colorbarLabel "cbarSetLabel")
  have hN4 := figureDpis_eq_nil_of_all_sideOk (titleEffects_sideOk a.title cfg.titleFontSize)
  have hN5 := figureDpis_eq_nil_of_all_sideOk (optLib_sideOk a.xlabel "xlabel")
  have hN6 := figureDpis_eq_nil_of_all_sideOk (optLib_sideOk a.ylabel "ylabel")
  have hN7 := figureDpis_eq_nil_of_all_sideOk (optLib_sideOk a.xLim "xlim")
  have hN8 := figureDpis_eq_nil_of_all_sideOk (optLib_sideOk a.yLim "ylim")
  have hinv1 : (if a.invertYAxis then [Effect.libCall "invertYaxis"] else []).all
      midClean = true := by
    split <;> simp [midClean, configOk, isSavefigE, isCloseE]
  have hinv2 : figureDpis (if a.invertYAxis then [Effect.libCall "invertYaxis"]
      else []) = [] := by
    split <;> simp [figureDpis]
  simp only [plot_vertical_section]
  rcases hfs : fieldShape1 a.fieldArray with e0 | w
  · simp only [hfs]
    have he0 : e0 = .indexError := by
      cases hFA : a.fieldArray <;> rw [hFA] at hfs <;> simp [fieldShape1] at hfs
      exact hfs.symm
    exact Or.inr ⟨[], e0, rfl, by simp, Or.inr (Or.inr he0)⟩
  · simp only [hfs]
    by_cases h1 : a.xArray.length ≠ w
    · rw [if_pos h1]
      exact Or.inr ⟨[], _, rfl, by simp, Or.inl rfl⟩
    · rw [if_neg h1]
      by_cases h2 : a.depthArray.length ≠ a.fieldArray.length
      · rw [if_pos h2]
        exact Or.inr ⟨[], _, rfl, by simp, Or.inr (Or.inl rfl)⟩
      · rw [if_neg h2]
        cases hT : a.xArrayIsTime
        · rw [if_neg (by simp [hT])]
          refine Or.inl ⟨_, rfl, ?_, ?_, ?_⟩
          · simp [List.all_append, hA, hO1, hO2, hO3, hO4, hO5, hO6, hO7, hO8,
              hinv1, midClean, configOk, configReadMethods, isSavefigE, isCloseE]
          · simp only [figureDpis_append, figureDpis_figure_singleton, hGd, hN1,
              hN2, hN3, hN4, hN5, hN6, hN7, hN8, hinv2]
            simp [figureDpis]
          · intro h
            simp [List.mem_append, hdpiMem h]
        · rw [if_pos (by simp [hT])]
          rcases hh : (vertX a).head? with _ | x0
          · try simp only [hh]
            refine Or.inr ⟨_, .indexError, rfl, ?_, Or.inr (Or.inr rfl)⟩
            simp [List.all_append, hA, hO1, hO2, hO3, hO4, hO5, hO6, hO7, hO8,
              hinv1, midClean, configOk, configReadMethods, isSavefigE, isCloseE]
          · try simp only [hh]
            rcases hg : (vertX a).getLast? with _ | xL
            · try simp only [hg]
              refine Or.inr ⟨_, .indexError, rfl, ?_, Or.inr (Or.inr rfl)⟩
              simp [List.all_append, hA, hO1, hO2, hO3, hO4, hO5, hO6, hO7, hO8,
                hinv1, midClean, configOk, configReadMethods, isSavefigE, isCloseE]
            · try simp only [hg]
              have hxt := @plot_xtick_format_ok a.calendar [some x0] [some xL]
                a.maxXTicks (by simp) (by simp) (by simp) (by simp)
              simp only [hxt]
              refine Or.inl ⟨_, rfl, ?_, ?_, ?_⟩
              · simp [List.all_append, hA, hO1, hO2, hO3, hO4, hO5, hO6, hO7, hO8,
                  hinv1, midClean, configOk, configReadMethods, isSavefigE, isCloseE]
              · simp only [figureDpis_append, figureDpis_figure_singleton, hGd, hN1,
                  hN2, hN3, hN4, hN5, hN6, hN7, hN8, hinv2]
                simp [figureDpis]
              · intro h
                simp [List.mem_append, hdpiMem h]

theorem polarcomp_complete (cfg : PlotConfig) (a : PolarCompArgs) :
    (plot_polar_comparison cfg a).2 = .ok () := by
  obtain ⟨tr, heq, _⟩ := polarcomp_shape cfg a
  rw [heq]
  rfl

theorem globalcomp_complete (cfg : PlotConfig) (a : GlobalCompArgs) :
    (plot_global_comparison cfg a).2 = .ok () := by
  obtain ⟨tr, heq, _⟩ := globalcomp_shape cfg a
  rw [heq]
  rfl

theorem tspolar_complete (cfg : PlotConfig) (a : TsPolarArgs)
    (h1 : a.dsvalues.length ≤ a.lineStyles.length)
    (h2 : a.dsvalues.length ≤ a.lineWidths.length)
    (h3 : a.dsvalues.length ≤ a.legendText.length) :
    (timeseries_analysis_plot_polar cfg a).2 = .ok () := by
  have hok := tsLoop_ok "polar" a.N a.lineStyles a.lineWidths a.legendText
    a.dsvalues 0 ⟨[], [], none, [], []⟩ (by simpa using h1) (by simpa using h2)
    (by simpa using h3)
  simp [timeseries_analysis_plot_polar, hok, finishPlot]

theorem ts_complete (cfg : PlotConfig) (a : TsArgs)
    (h1 : a.dsvalues.length ≤ a.lineStyles.length)
    (h2 : a.dsvalues.length ≤ a.lineWidths.length)
    (h3 : a.dsvalues.length ≤ a.legendText.length)
    (hne : ∃ o ∈ a.dsvalues, o ≠ none)
    (hds : ∀ o ∈ a.dsvalues, ∀ x : DataSet, o = some x → x ≠ []) :
    (timeseries_analysis_plot cfg a).2 = .ok () := by
  simp only [timeseries_analysis_plot]
  set L := tsLoop "plot" a.N a.lineStyles a.lineWidths a.legendText 0 a.dsvalues
    ⟨[], [], none, [], []⟩ with hL
  have hok : L.2 = none := by
    rw [hL]
    exact tsLoop_ok "plot" a.N a.lineStyles a.lineWidths a.legendText
      a.dsvalues 0 ⟨[], [], none, [], []⟩ (by simpa using h1) (by simpa using h2)
      (by simpa using h3)
  have hmin_ne : L.1.minDays ≠ [] := by
    rw [hL]
    exact tsLoop_minDays_ne "plot" a.N a.lineStyles a.lineWidths a.legendText
      a.dsvalues 0 ⟨[], [], none, [], []⟩ (Or.inl hne)
  have hmax_ne : L.1.maxDays ≠ [] := by
    rw [hL]
    exact tsLoop_maxDays_ne "plot" a.N a.lineStyles a.lineWidths a.legendText
      a.dsvalues 0 ⟨[], [], none, [], []⟩ (Or.inl hne)
  have hmin_some : ∀ m ∈ L.1.minDays, m.isSome := by
    rw [hL]
    exact tsLoop_minDays_some "plot" a.N a.lineStyles a.lineWidths a.legendText
      a.dsvalues 0 ⟨[], [], none, [], []⟩ hds (by simp)
  have hmax_some : ∀ m ∈ L.1.maxDays, m.isSome := by
    rw [hL]
    exact tsLoop_maxDays_some "plot" a.N a.lineStyles a.lineWidths a.legendText
      a.dsvalues 0 ⟨[], [], none, [], []⟩ hds (by simp)
  have hlm : L.1.lastMean.isSome := by
    rw [hL]
    exact tsLoop_lastMean "plot" a.N a.lineStyles a.lineWidths a.legendText
      a.dsvalues 0 ⟨[], [], none, [], []⟩ (Or.inl hne)
  obtain ⟨zTr, hz⟩ := @zeroLineStep_isSome_ok (ylimModel L.1.finite) L.1.lastMean hlm
  have hxt := @plot_xtick_format_ok a.calendar L.1.minDays L.1.maxDays a.maxXTicks
    hmin_ne hmin_some hmax_ne hmax_some
  simp [hok, hz, hxt, finishPlot]

theorem p1_complete (cfg : PlotConfig) (a : Plot1DArgs)
    (h0 : a.xArrays ≠ [])
    (h1 : a.xArrays.length ≤ a.fieldArrays.length)
    (h2 : a.xArrays.length ≤ a.errArrays.length)
    (h3 : a.xArrays.length ≤ a.lineColors.length)
    (h4 : a.xArrays.length ≤ a.lineWidths.length)
    (h5 : a.xArrays.length ≤ a.legendText.length)
    (hbc : ∀ j, j < a.xArrays.length → ∀ f er, a.fieldArrays.get? j = some f →
      a.errArrays.get? j = some (some er) → pyBroadcastOk f er = true) :
    (plot_1D cfg a).2 = .ok () := by
  have hok := p1Loop_ok a.fieldArrays a.errArrays a.lineColors a.lineWidths
    a.legendText a.xArrays 0 [] (by simpa using h1) (by simpa using h2)
    (by simpa using h3) (by simpa using h4) (by simpa using h5)
    (fun j _ hj2 => hbc j (by simpa using hj2))
  rcases hx : a.xArrays with _ | ⟨x0, xs⟩
  · exact absurd hx h0
  · rw [hx] at hok
    simp [plot_1D, hx, hok, finishPlot]

theorem vert_complete (cfg : PlotConfig) (a : VertArgs) (r : List Rat)
    (rs : List (List Rat)) (hfa : a.fieldArray = r :: rs)
    (h1 : a.xArray.length = r.length)
    (h2 : a.depthArray.length = a.fieldArray.length)
    (ht : a.xArrayIsTime = true → vertX a ≠ []) :
    (plot_vertical_section cfg a).2 = .ok () := by
  have hfs : fieldShape1 a.fieldArray = .ok r.length := by
    rw [hfa]
    simp [fieldShape1]
  simp only [plot_vertical_section, hfs]
  rw [if_neg (by omega), if_neg (by omega)]
  cases hT : a.xArrayIsTime
  · rw [if_neg (by simp [hT])]
    rfl
  · rw [if_pos (by simp [hT])]
    have hne := ht hT
    have hh := List.head?_eq_head hne
    have hg := List.getLast?_eq_getLast_of_ne_nil hne
    have hxt := @plot_xtick_format_ok a.calendar [some ((vertX a).head hne)]
      [some ((vertX a).getLast hne)] a.maxXTicks (by simp) (by simp) (by simp)
      (by simp)
    simp [hh, hg, hxt, finishPlot]

theorem pyIdxNorm_le (L : Nat) (i : Int) : pyIdxNorm L i ≤ L := by
  simp only [pyIdxNorm]
  split <;> omega

theorem pySlice_length {α : Type} (l : List α) (s t : Int) :
    (pySlice l s t).length = pyIdxNorm l.length t - pyIdxNorm l.length s := by
  have := pyIdxNorm_le l.length t
  simp only [pySlice, List.length_drop, List.length_take]
  omega

theorem rollingMeanCenter_length (n : Nat) (v : List Rat) :
    (rollingMeanCenter n v).length = v.length := by
  simp [rollingMeanCenter]

theorem smooth_lengths_eq (n : Nat) (x row : List Rat) (h : row.length = x.length) :
    (smoothX n x).length = (smoothSlice n row).length := by
  simp [smoothX, smoothSlice, pySlice_length, rollingMeanCenter_length, h]

theorem smoothX_length (n : Nat) (x : List Rat) (h3 : 3 ≤ n)
    (hL : n - 1 ≤ x.length) : (smoothX n x).length = x.length - (n - 1) := by
  simp only [smoothX, pySlice_length, pyIdxNorm, maTrimStart, maTrimStop]
  split <;> split <;> omega

theorem setup_colormap_trace_clean (c : CmapConfig) (sectionName suffix : String) :
    (setup_colormap c sectionName suffix).1.all midClean = true := by
  rcases hI : c.colormapIndices with _ | idx
  · simp [setup_colormap, hI, midClean, configOk, configReadMethods,
      isSavefigE, isCloseE]
  · rcases hLv : c.colorbarLevels with _ | lv
    · simp [setup_colormap, hI, hLv, midClean, configOk, configReadMethods,
        isSavefigE, isCloseE]
    · rcases idx with _ | ⟨i0, rest⟩
      · simp [setup_colormap, hI, hLv, midClean, configOk, configReadMethods,
          isSavefigE, isCloseE]
      · simp only [setup_colormap, hI, hLv]
        split
        · simp [midClean, configOk, configReadMethods, isSavefigE, isCloseE]
        · split <;>
            simp [midClean, configOk, configReadMethods, isSavefigE, isCloseE]

theorem setup_colormap_error_enum (c : CmapConfig) (sectionName suffix : String)
    {e : PyError} (h : (setup_colormap c sectionName suffix).2 = .error e) :
    e = .noOptionError sectionName ("colormapIndices" ++ suffix) ∨
    e = .indexError ∨
    e = .valueError "length mismatch between indices and colorbarLevels" := by
  rcases hI : c.colormapIndices with _ | idx
  · simp [setup_colormap, hI] at h
    tauto
  · rcases hLv : c.colorbarLevels with _ | lv
    · simp [setup_colormap, hI, hLv] at h
    · rcases idx with _ | ⟨i0, rest⟩
      · simp [setup_colormap, hI, hLv] at h
        tauto
      · simp only [setup_colormap, hI, hLv] at h
        split at h
        · simp at h
        · split at h
          · simp at h
            tauto
          · simp at h

theorem setup_colormap_levels_absent (c : CmapConfig) (sectionName suffix : String)
    (l : List Nat) (hI : c.colormapIndices = some l) (hL : c.colorbarLevels = none) :
    (setup_colormap c sectionName suffix).2 = .ok (.registry c.colormapName, none) := by
  simp [setup_colormap, hI, hL]

theorem setup_colormap_plus_one (c : CmapConfig) (sectionName suffix : String)
    (i0 : Nat) (rest : List Nat) (levels : List Rat)
    (hI : c.colormapIndices = some (i0 :: rest))
    (hL : c.colorbarLevels = some levels)
    (hlen : levels.length + 1 = (i0 :: rest).length) :
    ((setup_colormap c sectionName suffix).2.map fun p => (cmapListedCount p.1, p.2)) =
      .ok (some (levels.length - 1), some levels) := by
  simp only [setup_colormap, hI, hL]
  rw [if_pos hlen]
  simp only [Except.map, cmapListedCount]
  have hsl : (pySlice (i0 :: rest) 1 (-1)).length = levels.length - 1 := by
    have := pySlice_length (i0 :: rest) 1 (-1)
    simp [pyIdxNorm] at this
    simp only [List.length_cons] at this hlen ⊢
    omega
  simp [hsl]

theorem setup_colormap_minus_one (c : CmapConfig) (sectionName suffix : String)
    (i0 : Nat) (rest : List Nat) (levels : List Rat)
    (hI : c.colormapIndices = some (i0 :: rest))
    (hL : c.colorbarLevels = some levels)
    (hlen : levels.length = (i0 :: rest).length + 1) :
    ((setup_colormap c sectionName suffix).2.map fun p => (cmapListedCount p.1, p.2)) =
      .ok (some (i0 :: rest).length, some levels) := by
  simp only [setup_colormap, hI, hL]
  rw [if_neg (by omega), if_neg (by omega)]
  simp [Except.map, cmapListedCount]

theorem setup_colormap_mismatch (c : CmapConfig) (sectionName suffix : String)
    (i0 : Nat) (rest : List Nat) (levels : List Rat)
    (hI : c.colormapIndices = some (i0 :: rest))
    (hL : c.colorbarLevels = some levels)
    (h1 : levels.length + 1 ≠ (i0 :: rest).length)
    (h2 : levels.length ≠ (i0 :: rest).length + 1) :
    (setup_colormap c sectionName suffix).2 =
      .error (.valueError "length mismatch between indices and colorbarLevels") := by
  simp only [setup_colormap, hI, hL]
  rw [if_neg h1, if_pos (by omega)]

theorem figureDpis_finishPlot (cfg : PlotConfig) (fo : Option String) (d : Int)
    (tr : List Effect) : figureDpis (finishPlot cfg fo d tr).1 = figureDpis tr := by
  cases fo <;> cases hD : cfg.displayToScreen <;>
    simp [finishPlot, hD, savefigEffects, closeEffects, figureDpis,
      List.filterMap_append]

theorem figureSizes_finishPlot (cfg : PlotConfig) (fo : Option String) (d : Int)
    (tr : List Effect) : figureSizes (finishPlot cfg fo d tr).1 = figureSizes tr := by
  cases fo <;> cases hD : cfg.displayToScreen <;>
    simp [finishPlot, hD, savefigEffects, closeEffects, figureSizes,
      List.filterMap_append]

theorem subplotCodes_finishPlot (cfg : PlotConfig) (fo : Option String) (d : Int)
    (tr : List Effect) : subplotCodes (finishPlot cfg fo d tr).1 = subplotCodes tr := by
  cases fo <;> cases hD : cfg.displayToScreen <;>
    simp [finishPlot, hD, savefigEffects, closeEffects, subplotCodes,
      List.filterMap_append]

theorem mem_finishPlot_of_mem (cfg : PlotConfig) (fo : Option String) (d : Int)
    (tr : List Effect) {e : Effect} (h : e ∈ tr) : e ∈ (finishPlot cfg fo d tr).1 := by
  simp [finishPlot, List.mem_append]
  tauto

/-- C2: whenever `len(xArray) != fieldArray.shape[1]` or
`len(depthArray) != fieldArray.shape[0]`, `plot_vertical_section` raises
a `ValueError` immediately: the result is the corresponding error and the
effect trace is empty, so no figure was created and no output file was
written before the error. -/
theorem c2_theorem (cfg : PlotConfig) (a : VertArgs) (r : List Rat)
    (rs : List (List Rat)) (hfa : a.fieldArray = r :: rs)
    (hmis : a.xArray.length ≠ r.length ∨ a.depthArray.length ≠ a.fieldArray.length) :
    plot_vertical_section cfg a =
      ([], .error (.valueError "size mismatch between xArray and fieldArray")) ∨
    plot_vertical_section cfg a =
      ([], .error (.valueError "size mismatch between depthArray and fieldArray")) := by
  have hfs : fieldShape1 a.fieldArray = .ok r.length := by
    rw [hfa]
    simp [fieldShape1]
  simp only [plot_vertical_section, hfs]
  by_cases h1 : a.xArray.length ≠ r.length
  · rw [if_pos h1]
    exact Or.inl rfl
  · rw [if_neg h1]
    have h2 : a.depthArray.length ≠ a.fieldArray.length := by tauto
    rw [if_pos h2]
    exact Or.inr rfl

/-- C2 witness: a concrete shape-mismatched call returns the x/field
size-mismatch `ValueError` with an empty trace. -/
theorem c2_witness :
    plot_vertical_section cfgEx vertArgsBad =
      ([], .error (.valueError "size mismatch between xArray and fieldArray")) ∨
    plot_vertical_section cfgEx vertArgsBad =
      ([], .error (.valueError "size mismatch between depthArray and fieldArray")) :=
  c2_theorem cfgEx vertArgsBad [5, 6] [] rfl (Or.inl (by decide))

/-- C9 counterexample: for `N = 2` the trim `[int(N/2.0):-int(round(N/2.0)-1)]`
is `[1:-0]`, i.e. `[1:0]`, which empties both the x array and each smoothed
depth slice instead of removing `N - 1 = 1` point. -/
theorem c9_counterexample :
    (smoothX 2 [1, 2, 3]).length = 0 ∧ (smoothSlice 2 [4, 5, 6]).length = 0 ∧
    (smoothX 2 [1, 2, 3]).length ≠ ([1, 2, 3] : List Rat).length - (2 - 1) := by
  refine ⟨by decide, ?_, by decide⟩
  rw [smoothSlice, pySlice_length, rollingMeanCenter_length]
  decide

/-- C9 amended: for every `N > 1` the trimmed x array and each smoothed
depth slice keep equal lengths (so the shape consistency of the
precondition is preserved); and for `N ≥ 3` with at least `N - 1` points,
exactly `N - 1` points are removed.  For `N = 2` the trim instead empties
the arrays (see the counterexample). -/
theorem c9_theorem (n : Nat) (x row : List Rat) (h2 : 2 ≤ n)
    (hrow : row.length = x.length) :
    (smoothX n x).length = (smoothSlice n row).length ∧
    (3 ≤ n → n - 1 ≤ x.length → (smoothX n x).length = x.length - (n - 1)) := by
  have _ := h2
  exact ⟨smooth_lengths_eq n x row hrow,
    fun h3 hL => smoothX_length n x h3 hL⟩

/-- C9 witness: the amended statement evaluated at `N = 3` on a 4-point
section. -/
theorem c9_witness :
    (smoothX 3 [1, 2, 3, 4]).length = (smoothSlice 3 [5, 6, 7, 8]).length ∧
    (3 ≤ 3 → 3 - 1 ≤ ([1, 2, 3, 4] : List Rat).length →
      (smoothX 3 [1, 2, 3, 4]).length = ([1, 2, 3, 4] : List Rat).length - (3 - 1)) :=
  c9_theorem 3 [1, 2, 3, 4] [5, 6, 7, 8] (by decide) (by decide)

/-- C10: in `plot_polar_comparison`, when `figsize` is `None` the figure
is created at `(8, 22)` if `vertical` and `(22, 8.5)` otherwise, and the
three panels are laid out as `311, 312, 313` when `vertical` and as
`131, 132, 133` otherwise. -/
theorem c10_theorem (cfg : PlotConfig) (a : PolarCompArgs)
    (hfs : a.figsize = none) :
    figureSizes (plot_polar_comparison cfg a).1 =
      [if a.vertical then ((8 : Rat), (22 : Rat)) else ((22 : Rat), (8.5 : Rat))] ∧
    subplotCodes (plot_polar_comparison cfg a).1 =
      (if a.vertical then [311, 312, 313] else [131, 132, 133]) := by
  obtain ⟨tr, heq, _, _, _, _, h6, h7⟩ := polarcomp_shape cfg a
  rw [heq, figureSizes_finishPlot, subplotCodes_finishPlot]
  exact ⟨h6 hfs, h7⟩

/-- C10 witness: a concrete vertical call with `figsize = None` produces
one `(8, 22)` figure and the `311, 312, 313` layout. -/
theorem c10_witness :
    figureSizes (plot_polar_comparison cfgEx polarCompArgsEx).1 =
      [if polarCompArgsEx.vertical then ((8 : Rat), (22 : Rat))
       else ((22 : Rat), (8.5 : Rat))] ∧
    subplotCodes (plot_polar_comparison cfgEx polarCompArgsEx).1 =
      (if polarCompArgsEx.vertical then [311, 312, 313] else [131, 132, 133]) :=
  c10_theorem cfgEx polarCompArgsEx rfl

/-- C5: every plotting routine writes at most the one file named by its
`fileout` argument: the `savefig` effects of any call are either empty
(error path, or `fileout = None`) or exactly the single named file; in
particular a `None` fileout never writes a file. -/
theorem c5_theorem :
    (∀ (cfg : PlotConfig) (a : TsArgs),
      savefigFiles (timeseries_analysis_plot cfg a).1 = [] ∨
      savefigFiles (timeseries_analysis_plot cfg a).1 = a.fileout.toList) ∧
    (∀ (cfg : PlotConfig) (a : TsPolarArgs),
      savefigFiles (timeseries_analysis_plot_polar cfg a).1 = [] ∨
      savefigFiles (timeseries_analysis_plot_polar cfg a).1 = a.fileout.toList) ∧
    (∀ (cfg : PlotConfig) (a : PolarCompArgs),
      savefigFiles (plot_polar_comparison cfg a).1 = [] ∨
      savefigFiles (plot_polar_comparison cfg a).1 = a.fileout.toList) ∧
    (∀ (cfg : PlotConfig) (a : GlobalCompArgs),
      savefigFiles (plot_global_comparison cfg a).1 = [] ∨
      savefigFiles (plot_global_comparison cfg a).1 = a.fileout.toList) ∧
    (∀ (cfg : PlotConfig) (a : Plot1DArgs),
      savefigFiles (plot_1D cfg a).1 = [] ∨
      savefigFiles (plot_1D cfg a).1 = a.fileout.toList) ∧
    (∀ (cfg : PlotConfig) (a : VertArgs),
      savefigFiles (plot_vertical_section cfg a).1 = [] ∨
      savefigFiles (plot_vertical_section cfg a).1 = a.fileout.toList) := by
  refine ⟨?_, ?_, ?_, ?_, ?_, ?_⟩
  · intro cfg a
    rcases ts_shape cfg a with ⟨tr, heq, hmc, _⟩ | ⟨tr, e, heq, hmc, _⟩
    · right
      rw [heq, savefigFiles_finishPlot, savefigFiles_eq_nil_of_all_midClean hmc,
        List.nil_append]
    · left
      rw [heq]
      exact savefigFiles_eq_nil_of_all_midClean hmc
  · intro cfg a
    rcases tspolar_shape cfg a with ⟨tr, heq, hmc, _⟩ | ⟨tr, e, heq, hmc, _⟩
    · right
      rw [heq, savefigFiles_finishPlot, savefigFiles_eq_nil_of_all_midClean hmc,
        List.nil_append]
    · left
      rw [heq]
      exact savefigFiles_eq_nil_of_all_midClean hmc
  · intro cfg a
    obtain ⟨tr, heq, hmc, _⟩ := polarcomp_shape cfg a
    right
    rw [heq, savefigFiles_finishPlot, savefigFiles_eq_nil_of_all_midClean hmc,
      List.nil_append]
  · intro cfg a
    obtain ⟨tr, heq, hmc, _⟩ := globalcomp_shape cfg a
    right
    rw [heq, savefigFiles_finishPlot, savefigFiles_eq_nil_of_all_midClean hmc,
      List.nil_append]
  · intro cfg a
    rcases p1_shape cfg a with ⟨tr, heq, hmc, _⟩ | ⟨tr, e, heq, hmc, _⟩
    · right
      rw [heq, savefigFiles_finishPlot, savefigFiles_eq_nil_of_all_midClean hmc,
        List.nil_append]
    · left
      rw [heq]
      exact savefigFiles_eq_nil_of_all_midClean hmc
  · intro cfg a
    rcases vert_shape cfg a with ⟨tr, heq, hmc, _⟩ | ⟨tr, e, heq, hmc, _⟩
    · right
      rw [heq, savefigFiles_finishPlot, savefigFiles_eq_nil_of_all_midClean hmc,
        List.nil_append]
    · left
      rw [heq]
      exact savefigFiles_eq_nil_of_all_midClean hmc

/-- C5 witness: a concrete time-series call writes at most its named
output file. -/
theorem c5_witness :
    savefigFiles (timeseries_analysis_plot cfgEx tsArgsGood).1 = [] ∨
    savefigFiles (timeseries_analysis_plot cfgEx tsArgsGood).1 =
      tsArgsGood.fileout.toList :=
  c5_theorem.1 cfgEx tsArgsGood

/-- C6: for every plotting call that completes, the figure is closed
before the call returns exactly when the `displayToScreen` option of the
`[plot]` section is false: a `close` effect occurs iff the option is
false, and in that case it is the very last effect of the call. -/
theorem c6_theorem :
    (∀ (cfg : PlotConfig) (a : TsArgs),
      (timeseries_analysis_plot cfg a).2 = .ok () →
      ((Effect.close ∈ (timeseries_analysis_plot cfg a).1 ↔
        cfg.displayToScreen = false) ∧
       (cfg.displayToScreen = false →
        (timeseries_analysis_plot cfg a).1.getLast? = some Effect.close))) ∧
    (∀ (cfg : PlotConfig) (a : TsPolarArgs),
      (timeseries_analysis_plot_polar cfg a).2 = .ok () →
      ((Effect.close ∈ (timeseries_analysis_plot_polar cfg a).1 ↔
        cfg.displayToScreen = false) ∧
       (cfg.displayToScreen = false →
        (timeseries_analysis_plot_polar cfg a).1.getLast? = some Effect.close))) ∧
    (∀ (cfg : PlotConfig) (a : PolarCompArgs),
      (plot_polar_comparison cfg a).2 = .ok () →
      ((Effect.close ∈ (plot_polar_comparison cfg a).1 ↔
        cfg.displayToScreen = false) ∧
       (cfg.displayToScreen = false →
        (plot_polar_comparison cfg a).1.getLast? = some Effect.close))) ∧
    (∀ (cfg : PlotConfig) (a : GlobalCompArgs),
      (plot_global_comparison cfg a).2 = .ok () →
      ((Effect.close ∈ (plot_global_comparison cfg a).1 ↔
        cfg.displayToScreen = false) ∧
       (cfg.displayToScreen = false →
        (plot_global_comparison cfg a).1.getLast? = some Effect.close))) ∧
    (∀ (cfg : PlotConfig) (a : Plot1DArgs),
      (plot_1D cfg a).2 = .ok () →
      ((Effect.close ∈ (plot_1D cfg a).1 ↔ cfg.displayToScreen = false) ∧
       (cfg.displayToScreen = false →
        (plot_1D cfg a).1.getLast? = some Effect.close))) ∧
    (∀ (cfg : PlotConfig) (a : VertArgs),
      (plot_vertical_section cfg a).2 = .ok () →
      ((Effect.close ∈ (plot_vertical_section cfg a).1 ↔
        cfg.displayToScreen = false) ∧
       (cfg.displayToScreen = false →
        (plot_vertical_section cfg a).1.getLast? = some Effect.close))) := by
  refine ⟨?_, ?_, ?_, ?_, ?_, ?_⟩
  · intro cfg a hok
    rcases ts_shape cfg a with ⟨tr, heq, hmc, _⟩ | ⟨tr, e, heq, _, _⟩
    · rw [heq]
      constructor
      · rw [close_mem_finishPlot]
        have := close_not_mem_of_all_midClean hmc
        tauto
      · exact finishPlot_getLast_close cfg a.fileout _ tr
    · rw [heq] at hok
      simp at hok
  · intro cfg a hok
    rcases tspolar_shape cfg a with ⟨tr, heq, hmc, _⟩ | ⟨tr, e, heq, _, _⟩
    · rw [heq]
      constructor
      · rw [close_mem_finishPlot]
        have := close_not_mem_of_all_midClean hmc
        tauto
      · exact finishPlot_getLast_close cfg a.fileout _ tr
    · rw [heq] at hok
      simp at hok
  · intro cfg a hok
    obtain ⟨tr, heq, hmc, _⟩ := polarcomp_shape cfg a
    rw [heq]
    constructor
    · rw [close_mem_finishPlot]
      have := close_not_mem_of_all_midClean hmc
      tauto
    · exact finishPlot_getLast_close cfg a.fileout _ tr
  · intro cfg a hok
    obtain ⟨tr, heq, hmc, _⟩ := globalcomp_shape cfg a
    rw [heq]
    constructor
    · rw [close_mem_finishPlot]
      have := close_not_mem_of_all_midClean hmc
      tauto
    · exact finishPlot_getLast_close cfg a.fileout _ tr
  · intro cfg a hok
    rcases p1_shape cfg a with ⟨tr, heq, hmc, _⟩ | ⟨tr, e, heq, _, _⟩
    · rw [heq]
      constructor
      · rw [close_mem_finishPlot]
        have := close_not_mem_of_all_midClean hmc
        tauto
      · exact finishPlot_getLast_close cfg a.fileout _ tr
    · rw [heq] at hok
      simp at hok
  · intro cfg a hok
    rcases vert_shape cfg a with ⟨tr, heq, hmc, _⟩ | ⟨tr, e, heq, _, _⟩
    · rw [heq]
      constructor
      · rw [close_mem_finishPlot]
        have := close_not_mem_of_all_midClean hmc
        tauto
      · exact finishPlot_getLast_close cfg a.fileout _ tr
    · rw [heq] at hok
      simp at hok

/-- C6 witness: a concrete completing call with `displayToScreen = False`
ends in a `close` effect. -/
theorem c6_witness :
    (Effect.close ∈ (timeseries_analysis_plot cfgEx tsArgsGood).1 ↔
      cfgEx.displayToScreen = false) ∧
    (cfgEx.displayToScreen = false →
      (timeseries_analysis_plot cfgEx tsArgsGood).1.getLast? = some Effect.close) :=
  c6_theorem.1 cfgEx tsArgsGood
    (ts_complete cfgEx tsArgsGood (by decide) (by decide) (by decide)
      ⟨some [(0, 1), (370, 2)], by decide, by decide⟩
      (by
        intro o ho x hx
        simp [tsArgsGood] at ho
        subst ho
        injection hx with h
        subst h
        decide))

/-- C7: every routine of the module only reads the configuration: every
configuration-touching effect of any call, on any path, is one of the
four read accessors (`get`, `getint`, `getboolean`, `getExpression`) and
no write effect ever occurs. -/
theorem c7_theorem :
    (∀ (cfg : PlotConfig) (a : TsArgs),
      ∀ e ∈ (timeseries_analysis_plot cfg a).1, configOk e = true) ∧
    (∀ (cfg : PlotConfig) (a : TsPolarArgs),
      ∀ e ∈ (timeseries_analysis_plot_polar cfg a).1, configOk e = true) ∧
    (∀ (cfg : PlotConfig) (a : PolarCompArgs),
      ∀ e ∈ (plot_polar_comparison cfg a).1, configOk e = true) ∧
    (∀ (cfg : PlotConfig) (a : GlobalCompArgs),
      ∀ e ∈ (plot_global_comparison cfg a).1, configOk e = true) ∧
    (∀ (cfg : PlotConfig) (a : Plot1DArgs),
      ∀ e ∈ (plot_1D cfg a).1, configOk e = true) ∧
    (∀ (cfg : PlotConfig) (a : VertArgs),
      ∀ e ∈ (plot_vertical_section cfg a).1, configOk e = true) ∧
    (∀ (c : CmapConfig) (sectionName suffix : String),
      ∀ e ∈ (setup_colormap c sectionName suffix).1, configOk e = true) := by
  refine ⟨?_, ?_, ?_, ?_, ?_, ?_, ?_⟩
  · intro cfg a
    rcases ts_shape cfg a with ⟨tr, heq, hmc, _⟩ | ⟨tr, e, heq, hmc, _⟩
    · rw [heq]
      exact configOk_finishPlot cfg a.fileout _ tr (configOk_of_all_midClean hmc)
    · rw [heq]
      exact configOk_of_all_midClean hmc
  · intro cfg a
    rcases tspolar_shape cfg a with ⟨tr, heq, hmc, _⟩ | ⟨tr, e, heq, hmc, _⟩
    · rw [heq]
      exact configOk_finishPlot cfg a.fileout _ tr (configOk_of_all_midClean hmc)
    · rw [heq]
      exact configOk_of_all_midClean hmc
  · intro cfg a
    obtain ⟨tr, heq, hmc, _⟩ := polarcomp_shape cfg a
    rw [heq]
    exact configOk_finishPlot cfg a.fileout _ tr (configOk_of_all_midClean hmc)
  · intro cfg a
    obtain ⟨tr, heq, hmc, _⟩ := globalcomp_shape cfg a
    rw [heq]
    exact configOk_finishPlot cfg a.fileout _ tr (configOk_of_all_midClean hmc)
  · intro cfg a
    rcases p1_shape cfg a with ⟨tr, heq, hmc, _⟩ | ⟨tr, e, heq, hmc, _⟩
    · rw [heq]
      exact configOk_finishPlot cfg a.fileout _ tr (configOk_of_all_midClean hmc)
    · rw [heq]
      exact configOk_of_all_midClean hmc
  · intro cfg a
    rcases vert_shape cfg a with ⟨tr, heq, hmc, _⟩ | ⟨tr, e, heq, hmc, _⟩
    · rw [heq]
      exact configOk_finishPlot cfg a.fileout _ tr (configOk_of_all_midClean hmc)
    · rw [heq]
      exact configOk_of_all_midClean hmc
  · intro c sectionName suffix
    exact configOk_of_all_midClean (setup_colormap_trace_clean c sectionName suffix)

/-- C7 witness: every effect of a concrete `setup_colormap` call is a
read-only configuration access or a library call. -/
theorem c7_witness :
    ∀ e ∈ (setup_colormap cmapCfgNoLevels "climatology" "").1, configOk e = true :=
  c7_theorem.2.2.2.2.2.2 cmapCfgNoLevels "climatology" ""

/-- C4 counterexample: `plot_polar_comparison` called with `title = None`
and `titleFontSize = None` completes, yet never reads option
`titleFontSize` of section `[plot]`: the fallback only happens inside
`if title is not None`, so the claim that an omitted `titleFontSize`
always falls back to the configuration default is false. -/
theorem c4_counterexample :
    polarCompArgsEx.titleFontSize = none ∧
    (plot_polar_comparison cfgEx polarCompArgsEx).2 = .ok () ∧
    Effect.configRead "get" "plot" "titleFontSize" ∉
      (plot_polar_comparison cfgEx polarCompArgsEx).1 := by
  refine ⟨rfl, rfl, ?_⟩
  decide

/-- C4 amended: on every completing call of every plotting routine an
omitted `dpi` is read from option `dpi` of `[plot]` via `getint` and that
value is the one used to create the figure; an omitted `titleFontSize`
is read from option `titleFontSize` of `[plot]` unconditionally in the
two time-series routines, but in `plot_polar_comparison` and
`plot_global_comparison` only when a title is actually drawn
(`title ≠ None`). -/
theorem c4_theorem :
    (∀ (cfg : PlotConfig) (a : TsArgs),
      (timeseries_analysis_plot cfg a).2 = .ok () → a.dpi = none →
      Effect.configRead "getint" "plot" "dpi" ∈ (timeseries_analysis_plot cfg a).1 ∧
      figureDpis (timeseries_analysis_plot cfg a).1 = [cfg.dpi]) ∧
    (∀ (cfg : PlotConfig) (a : TsPolarArgs),
      (timeseries_analysis_plot_polar cfg a).2 = .ok () → a.dpi = none →
      Effect.configRead "getint" "plot" "dpi" ∈
        (timeseries_analysis_plot_polar cfg a).1 ∧
      figureDpis (timeseries_analysis_plot_polar cfg a).1 = [cfg.dpi]) ∧
    (∀ (cfg : PlotConfig) (a : PolarCompArgs),
      (plot_polar_comparison cfg a).2 = .ok () → a.dpi = none →
      Effect.configRead "getint" "plot" "dpi" ∈ (plot_polar_comparison cfg a).1 ∧
      figureDpis (plot_polar_comparison cfg a).1 = [cfg.dpi]) ∧
    (∀ (cfg : PlotConfig) (a : GlobalCompArgs),
      (plot_global_comparison cfg a).2 = .ok () → a.dpi = none →
      Effect.configRead "getint" "plot" "dpi" ∈ (plot_global_comparison cfg a).1 ∧
      figureDpis (plot_global_comparison cfg a).1 = [cfg.dpi]) ∧
    (∀ (cfg : PlotConfig) (a : Plot1DArgs),
      (plot_1D cfg a).2 = .ok () → a.dpi = none →
      Effect.configRead "getint" "plot" "dpi" ∈ (plot_1D cfg a).1 ∧
      figureDpis (plot_1D cfg a).1 = [cfg.dpi]) ∧
    (∀ (cfg : PlotConfig) (a : VertArgs),
      (plot_vertical_section cfg a).2 = .ok () → a.dpi = none →
      Effect.configRead "getint" "plot" "dpi" ∈ (plot_vertical_section cfg a).1 ∧
      figureDpis (plot_vertical_section cfg a).1 = [cfg.dpi]) ∧
    (∀ (cfg : PlotConfig) (a : TsArgs),
      (timeseries_analysis_plot cfg a).2 = .ok () → a.titleFontSize = none →
      Effect.configRead "get" "plot" "titleFontSize" ∈
        (timeseries_analysis_plot cfg a).1) ∧
    (∀ (cfg : PlotConfig) (a : TsPolarArgs),
      (timeseries_analysis_plot_polar cfg a).2 = .ok () → a.titleFontSize = none →
      Effect.configRead "get" "plot" "titleFontSize" ∈
        (timeseries_analysis_plot_polar cfg a).1) ∧
    (∀ (cfg : PlotConfig) (a : PolarCompArgs),
      a.title ≠ none → a.titleFontSize = none →
      Effect.configRead "get" "plot" "titleFontSize" ∈
        (plot_polar_comparison cfg a).1) ∧
    (∀ (cfg : PlotConfig) (a : GlobalCompArgs),
      a.title ≠ none → a.titleFontSize = none →
      Effect.configRead "get" "plot" "titleFontSize" ∈
        (plot_global_comparison cfg a).1) := by
  refine ⟨?_, ?_, ?_, ?_, ?_, ?_, ?_, ?_, ?_, ?_⟩
  · intro cfg a hok hd
    rcases ts_shape cfg a with ⟨tr, heq, _, hfd, hdm, _⟩ | ⟨tr, e, heq, _, _⟩
    · rw [heq, figureDpis_finishPlot]
      rw [hd] at hfd hdm ⊢
      exact ⟨mem_finishPlot_of_mem _ _ _ _ (hdm rfl), hfd⟩
    · rw [heq] at hok
      simp at hok
  · intro cfg a hok hd
    rcases tspolar_shape cfg a with ⟨tr, heq, _, hfd, hdm, _⟩ | ⟨tr, e, heq, _, _⟩
    · rw [heq, figureDpis_finishPlot]
      rw [hd] at hfd hdm ⊢
      exact ⟨mem_finishPlot_of_mem _ _ _ _ (hdm rfl), hfd⟩
    · rw [heq] at hok
      simp at hok
  · intro cfg a hok hd
    obtain ⟨tr, heq, _, hfd, hdm, _⟩ := polarcomp_shape cfg a
    rw [heq, figureDpis_finishPlot]
    rw [hd] at hfd hdm ⊢
    exact ⟨mem_finishPlot_of_mem _ _ _ _ (hdm rfl), hfd⟩
  · intro cfg a hok hd
    obtain ⟨tr, heq, _, hfd, hdm, _⟩ := globalcomp_shape cfg a
    rw [heq, figureDpis_finishPlot]
    rw [hd] at hfd hdm ⊢
    exact ⟨mem_finishPlot_of_mem _ _ _ _ (hdm rfl), hfd⟩
  · intro cfg a hok hd
    rcases p1_shape cfg a with ⟨tr, heq, _, hfd, hdm⟩ | ⟨tr, e, heq, _, _⟩
    · rw [heq, figureDpis_finishPlot]
      rw [hd] at hfd hdm ⊢
      exact ⟨mem_finishPlot_of_mem _ _ _ _ (hdm rfl), hfd⟩
    · rw [heq] at hok
      simp at hok
  · intro cfg a hok hd
    rcases vert_shape cfg a with ⟨tr, heq, _, hfd, hdm⟩ | ⟨tr, e, heq, _, _⟩
    · rw [heq, figureDpis_finishPlot]
      rw [hd] at hfd hdm ⊢
      exact ⟨mem_finishPlot_of_mem _ _ _ _ (hdm rfl), hfd⟩
    · rw [heq] at hok
      simp at hok
  · intro cfg a hok ht
    rcases ts_shape cfg a with ⟨tr, heq, _, _, _, htm⟩ | ⟨tr, e, heq, _, _⟩
    · rw [heq]
      exact mem_finishPlot_of_mem _ _ _ _ (htm ht)
    · rw [heq] at hok
      simp at hok
  · intro cfg a hok ht
    rcases tspolar_shape cfg a with ⟨tr, heq, _, _, _, htm⟩ | ⟨tr, e, heq, _, _⟩
    · rw [heq]
      exact mem_finishPlot_of_mem _ _ _ _ (htm ht)
    · rw [heq] at hok
      simp at hok
  · intro cfg a htt ht
    obtain ⟨tr, heq, _, _, _, htm, _⟩ := polarcomp_shape cfg a
    rw [heq]
    exact mem_finishPlot_of_mem _ _ _ _ (htm htt ht)
  · intro cfg a htt ht
    obtain ⟨tr, heq, _, _, _, htm⟩ := globalcomp_shape cfg a
    rw [heq]
    exact mem_finishPlot_of_mem _ _ _ _ (htm htt ht)

/-- C4 witness: a concrete completing global-comparison call with a title
and omitted dpi and titleFontSize reads both options from the
configuration, and the figure uses the configured dpi. -/
theorem c4_witness :
    (Effect.configRead "getint" "plot" "dpi" ∈
       (plot_global_comparison cfgEx globalCompArgsEx).1 ∧
     figureDpis (plot_global_comparison cfgEx globalCompArgsEx).1 = [cfgEx.dpi]) ∧
    Effect.configRead "get" "plot" "titleFontSize" ∈
      (plot_global_comparison cfgEx globalCompArgsEx).1 :=
  ⟨c4_theorem.2.2.2.1 cfgEx globalCompArgsEx
      (globalcomp_complete cfgEx globalCompArgsEx) rfl,
   c4_theorem.2.2.2.2.2.2.2.2.2 cfgEx globalCompArgsEx (by decide) rfl⟩

/-- C3 counterexample: `timeseries_analysis_plot` on a well-formed call
whose datasets are all `None` raises (the `np.amin` of the empty
`minDays` list), and `plot_1D` on a well-formed empty list of arrays
raises a `NameError` (the loop variable `dsIndex` is never bound), so
the claim that these calls complete for every such input is false. -/
theorem c3_counterexample :
    (timeseries_analysis_plot cfgEx tsArgsAllNone).2 =
      .error (.valueError
        "zero-size array to reduction operation minimum which has no identity") ∧
    (plot_1D cfgEx p1ArgsEmpty).2 = .error (.nameError "dsIndex") := by
  constructor
  · have hz : zeroLineStep (ylimModel [])
        (none : Option (List (Rat × Option Rat))) = .ok [] := by
      simp [zeroLineStep, ylimModel]
    simp [timeseries_analysis_plot, tsArgsAllNone, tsLoop, hz,
      plot_xtick_format, npAmin]
  · rfl

/-- C3 amended: each plotting routine completes without raising on
well-formed inputs, provided `timeseries_analysis_plot` is given at
least one non-`None`, nonempty dataset and `plot_1D` a nonempty list of
arrays; the comparison routines complete unconditionally, and
`plot_vertical_section` completes when its shape precondition holds and,
in time mode, the (possibly smoothed) x array is nonempty. -/
theorem c3_theorem :
    (∀ (cfg : PlotConfig) (a : TsArgs),
      a.dsvalues.length ≤ a.lineStyles.length →
      a.dsvalues.length ≤ a.lineWidths.length →
      a.dsvalues.length ≤ a.legendText.length →
      tsAnyDataset a.dsvalues = true → tsDatasetsOk a.dsvalues = true →
      (timeseries_analysis_plot cfg a).2 = .ok ()) ∧
    (∀ (cfg : PlotConfig) (a : TsPolarArgs),
      a.dsvalues.length ≤ a.lineStyles.length →
      a.dsvalues.length ≤ a.lineWidths.length →
      a.dsvalues.length ≤ a.legendText.length →
      (timeseries_analysis_plot_polar cfg a).2 = .ok ()) ∧
    (∀ (cfg : PlotConfig) (a : PolarCompArgs),
      (plot_polar_comparison cfg a).2 = .ok ()) ∧
    (∀ (cfg : PlotConfig) (a : GlobalCompArgs),
      (plot_global_comparison cfg a).2 = .ok ()) ∧
    (∀ (cfg : PlotConfig) (a : Plot1DArgs),
      a.xArrays ≠ [] →
      a.xArrays.length ≤ a.fieldArrays.length →
      a.xArrays.length ≤ a.errArrays.length →
      a.xArrays.length ≤ a.lineColors.length →
      a.xArrays.length ≤ a.lineWidths.length →
      a.xArrays.length ≤ a.legendText.length →
      p1BroadcastsOk a = true →
      (plot_1D cfg a).2 = .ok ()) ∧
    (∀ (cfg : PlotConfig) (a : VertArgs) (r : List Rat) (rs : List (List Rat)),
      a.fieldArray = r :: rs →
      a.xArray.length = r.length →
      a.depthArray.length = a.fieldArray.length →
      (a.xArrayIsTime = true → vertX a ≠ []) →
      (plot_vertical_section cfg a).2 = .ok ()) := by
  refine ⟨?_, ?_, ?_, ?_, ?_, ?_⟩
  · intro cfg a h1 h2 h3 hany hok
    refine ts_complete cfg a h1 h2 h3 ?_ ?_
    · obtain ⟨o, ho, hsome⟩ := List.any_eq_true.mp hany
      exact ⟨o, ho, Option.ne_none_iff_isSome.mpr hsome⟩
    · intro o ho x hx
      have hq := List.all_eq_true.mp hok o ho
      subst hx
      cases x with
      | nil => simp at hq
      | cons y ys => simp
  · intro cfg a h1 h2 h3
    exact tspolar_complete cfg a h1 h2 h3
  · exact polarcomp_complete
  · exact globalcomp_complete
  · intro cfg a h0 h1 h2 h3 h4 h5 hbc
    refine p1_complete cfg a h0 h1 h2 h3 h4 h5 ?_
    intro j hj f er hf he
    have hq := List.all_eq_true.mp hbc j (List.mem_range.mpr hj)
    rw [hf, he] at hq
    exact hq
  · intro cfg a r rs hfa h1 h2 ht
    exact vert_complete cfg a r rs hfa h1 h2 ht

/-- C3 witness: concrete well-formed calls of all six routines complete. -/
theorem c3_witness :
    (timeseries_analysis_plot cfgEx tsArgsGood).2 = .ok () ∧
    (timeseries_analysis_plot_polar cfgEx tsPolarArgsGood).2 = .ok () ∧
    (plot_polar_comparison cfgEx polarCompArgsEx).2 = .ok () ∧
    (plot_global_comparison cfgEx globalCompArgsEx).2 = .ok () ∧
    (plot_1D cfgEx p1ArgsGood).2 = .ok () ∧
    (plot_vertical_section cfgEx vertArgsGood).2 = .ok () :=
  ⟨c3_theorem.1 cfgEx tsArgsGood (by decide) (by decide) (by decide)
      (by decide) (by decide),
   c3_theorem.2.1 cfgEx tsPolarArgsGood (by decide) (by decide) (by decide),
   c3_theorem.2.2.1 cfgEx polarCompArgsEx,
   c3_theorem.2.2.2.1 cfgEx globalCompArgsEx,
   c3_theorem.2.2.2.2.1 cfgEx p1ArgsGood (by decide) (by decide) (by decide)
      (by decide) (by decide) (by decide) (by decide),
   c3_theorem.2.2.2.2.2 cfgEx vertArgsGood [5, 6] [] rfl (by decide) (by decide)
      (by decide)⟩

/-- C1 counterexample: `setup_colormap` explicitly raises a `ValueError`
(`length mismatch between indices and colorbarLevels`) on a call that
involves no coordinate or field arrays at all, so the shape mismatch of
`plot_vertical_section` is not the only explicitly raised error
condition of the module. -/
theorem c1_counterexample :
    (setup_colormap cmapCfgMismatch "climatology" "").2 =
      .error (.valueError "length mismatch between indices and colorbarLevels") ∧
    PyError.valueError "length mismatch between indices and colorbarLevels" ≠
      PyError.valueError "size mismatch between xArray and fieldArray" ∧
    PyError.valueError "length mismatch between indices and colorbarLevels" ≠
      PyError.valueError "size mismatch between depthArray and fieldArray" :=
  ⟨rfl, by decide, by decide⟩

/-- C1 amended: the raise statements of the module are the two
coordinate/field size-mismatch `ValueError`s of `plot_vertical_section`
and the indices/colorbarLevels length-mismatch `ValueError` of
`setup_colormap`; module code can additionally surface `IndexError`,
`NameError` and numpy `ValueError`s from its own array handling (none of
which carry the raise-statement messages), and the `NoOptionError` of
the config parser for a missing `colorbarLevels` option is caught and
translated into a `None` level list rather than propagated. -/
theorem c1_theorem :
    (∀ (cfg : PlotConfig) (a : VertArgs) (e : PyError),
      (plot_vertical_section cfg a).2 = .error e →
      (e = .valueError "size mismatch between xArray and fieldArray" ∨
       e = .valueError "size mismatch between depthArray and fieldArray" ∨
       e = .indexError)) ∧
    (∀ (c : CmapConfig) (sectionName suffix : String) (e : PyError),
      (setup_colormap c sectionName suffix).2 = .error e →
      (e = .noOptionError sectionName ("colormapIndices" ++ suffix) ∨
       e = .indexError ∨
       e = .valueError "length mismatch between indices and colorbarLevels")) ∧
    (∀ (cfg : PlotConfig) (a : TsArgs) (e : PyError),
      (timeseries_analysis_plot cfg a).2 = .error e →
      e ≠ .valueError "size mismatch between xArray and fieldArray" ∧
      e ≠ .valueError "size mismatch between depthArray and fieldArray" ∧
      e ≠ .valueError "length mismatch between indices and colorbarLevels") ∧
    (∀ (cfg : PlotConfig) (a : TsPolarArgs) (e : PyError),
      (timeseries_analysis_plot_polar cfg a).2 = .error e →
      e ≠ .valueError "size mismatch between xArray and fieldArray" ∧
      e ≠ .valueError "size mismatch between depthArray and fieldArray" ∧
      e ≠ .valueError "length mismatch between indices and colorbarLevels") ∧
    (∀ (cfg : PlotConfig) (a : Plot1DArgs) (e : PyError),
      (plot_1D cfg a).2 = .error e →
      e ≠ .valueError "size mismatch between xArray and fieldArray" ∧
      e ≠ .valueError "size mismatch between depthArray and fieldArray" ∧
      e ≠ .valueError "length mismatch between indices and colorbarLevels") ∧
    (∀ (cfg : PlotConfig) (a : PolarCompArgs) (e : PyError),
      (plot_polar_comparison cfg a).2 ≠ .error e) ∧
    (∀ (cfg : PlotConfig) (a : GlobalCompArgs) (e : PyError),
      (plot_global_comparison cfg a).2 ≠ .error e) ∧
    (∀ (c : CmapConfig) (sectionName suffix : String) (l : List Nat),
      c.colormapIndices = some l → c.colorbarLevels = none →
      (setup_colormap c sectionName suffix).2 =
        .ok (.registry c.colormapName, none)) := by
  refine ⟨?_, ?_, ?_, ?_, ?_, ?_, ?_, ?_⟩
  · intro cfg a e h
    rcases vert_shape cfg a with ⟨tr, heq, _⟩ | ⟨tr, e2, heq, _, henum⟩
    · rw [heq, finishPlot_snd] at h
      simp at h
    · rw [heq] at h
      simp at h
      subst h
      exact henum
  · intro c sectionName suffix e h
    exact setup_colormap_error_enum c sectionName suffix h
  · intro cfg a e h
    rcases ts_shape cfg a with ⟨tr, heq, _⟩ | ⟨tr, e2, heq, _, henum⟩
    · rw [heq, finishPlot_snd] at h
      simp at h
    · rw [heq] at h
      simp at h
      subst h
      rcases henum with h | h | h | h | h <;> subst h <;>
        exact ⟨by decide, by decide, by decide⟩
  · intro cfg a e h
    rcases tspolar_shape cfg a with ⟨tr, heq, _⟩ | ⟨tr, e2, heq, _, henum⟩
    · rw [heq, finishPlot_snd] at h
      simp at h
    · rw [heq] at h
      simp at h
      subst h
      subst henum
      exact ⟨by decide, by decide, by decide⟩
  · intro cfg a e h
    rcases p1_shape cfg a with ⟨tr, heq, _⟩ | ⟨tr, e2, heq, _, henum⟩
    · rw [heq, finishPlot_snd] at h
      simp at h
    · rw [heq] at h
      simp at h
      subst h
      rcases henum with h | h | h <;> subst h <;>
        exact ⟨by decide, by decide, by decide⟩
  · intro cfg a e h
    rw [polarcomp_complete cfg a] at h
    simp at h
  · intro cfg a e h
    rw [globalcomp_complete cfg a] at h
    simp at h
  · intro c sectionName suffix l hI hL
    exact setup_colormap_levels_absent c sectionName suffix l hI hL

/-- C1 witness: the amended enumeration applied to the concrete
mismatched `setup_colormap` call. -/
theorem c1_witness :
    PyError.valueError "length mismatch between indices and colorbarLevels" =
      .noOptionError "climatology" ("colormapIndices" ++ "") ∨
    PyError.valueError "length mismatch between indices and colorbarLevels" =
      .indexError ∨
    PyError.valueError "length mismatch between indices and colorbarLevels" =
      .valueError "length mismatch between indices and colorbarLevels" :=
  c1_theorem.2.1 cmapCfgMismatch "climatology" ""
    (.valueError "length mismatch between indices and colorbarLevels") rfl

/-- C8 counterexample: with `colorbarLevels` present and an empty
`colormapIndices` list (a length mismatch, which the claim says raises a
`ValueError`), `setup_colormap` instead raises `IndexError` at
`colormap(indices[0])`, before the length check. -/
theorem c8_counterexample :
    (setup_colormap cmapCfgEmptyIdx "climatology" "").2 = .error .indexError ∧
    isValueError .indexError = false :=
  ⟨rfl, rfl⟩

/-- C8 amended: for a nonempty indices list, `setup_colormap` behaves as
the claim states: an absent `colorbarLevels` option returns the registry
colormap with `None`; with levels present it returns a listed colormap
of `len(colorbarLevels) - 1` colors when `len(indices) =
len(colorbarLevels) + 1` (under/over removed), of `len(indices)` colors
when `len(indices) = len(colorbarLevels) - 1`, and raises the
length-mismatch `ValueError` otherwise.  (On an empty indices list the
code instead raises `IndexError`; see the counterexample.) -/
theorem c8_theorem (c : CmapConfig) (sectionName suffix : String) (i0 : Nat)
    (rest : List Nat) (hI : c.colormapIndices = some (i0 :: rest)) :
    (c.colorbarLevels = none →
      (setup_colormap c sectionName suffix).2 =
        .ok (.registry c.colormapName, none)) ∧
    (∀ levels : List Rat, c.colorbarLevels = some levels →
      ((levels.length + 1 = (i0 :: rest).length →
        ((setup_colormap c sectionName suffix).2.map
            fun p => (cmapListedCount p.1, p.2)) =
          .ok (some (levels.length - 1), some levels)) ∧
       (levels.length = (i0 :: rest).length + 1 →
        ((setup_colormap c sectionName suffix).2.map
            fun p => (cmapListedCount p.1, p.2)) =
          .ok (some (i0 :: rest).length, some levels)) ∧
       (levels.length + 1 ≠ (i0 :: rest).length →
        levels.length ≠ (i0 :: rest).length + 1 →
        (setup_colormap c sectionName suffix).2 =
          .error (.valueError "length mismatch between indices and colorbarLevels")))) :=
  ⟨fun hL => setup_colormap_levels_absent c sectionName suffix _ hI hL,
   fun levels hL =>
     ⟨fun hlen => setup_colormap_plus_one c sectionName suffix i0 rest levels hI hL hlen,
      fun hlen => setup_colormap_minus_one c sectionName suffix i0 rest levels hI hL hlen,
      fun h1 h2 => setup_colormap_mismatch c sectionName suffix i0 rest levels hI hL h1 h2⟩⟩

/-- C8 witness: the amended statement evaluated on a section whose
indices list is one longer than its two levels: the resulting listed
colormap has exactly one color. -/
theorem c8_witness :
    ((setup_colormap cmapCfgPlusOne "climatology" "").2.map
        fun p => (cmapListedCount p.1, p.2)) =
      .ok (some (([1, 2] : List Rat).length - 1), some ([1, 2] : List Rat)) :=
  (((c8_theorem cmapCfgPlusOne "climatology" "" 0 [5, 9] rfl).2
    [1, 2] rfl).1) (by decide)
